import Mathlib

/-!
# Teclado embaralhado com FreeRTOS: embedding of `src/main.c`

The five tasks of `main.c` communicate through FreeRTOS queues, one binary
semaphore and one mutex-guarded array.  Each task body is embedded as a pure
function from the task's local variables (plus the shared objects it touches)
to the new variables and the ordered list of messages it sends.

Conventions
* `char` values are `Char`; `uint8_t`, `uint16_t`, `int`, `size_t` and
  `TickType_t` values are `Nat`, with `% 2^w` written where the C arithmetic
  can wrap.
* `char matriz[4][4]` is a `List Char` of 16 cells in the row-major order in
  which C stores it: `matriz[k][l]` is cell `k * NUMBERS_PER_LINE + l`.
* A read of an array cell that does not exist yields `NUL` (an empty grid for
  an array of grids); a write to such a cell is dropped.  The C program has
  undefined behaviour there, so nothing is claimed about those cases.
* `xQueueSend` is recorded as the message appended to the list of messages
  sent; queue capacity is not modelled.
-/

namespace Teclado

/-! ## Constants (`#define`s of `main.c`) -/

abbrev BUTTON_R : Nat := 6
abbrev NUM_LINES : Nat := 4
abbrev NUMBERS_PER_LINE : Nat := 4
abbrev PIN_LENGTH : Nat := 6
abbrev DEBOUNCE_TIME_MS : Nat := 200
abbrev TOTAL_CHARS : Nat := 16

/-- The terminating byte of a C string. -/
abbrev NUL : Char := Char.ofNat 0

/-! ## Message types -/

inductive EventoEntradaTipo_t where
  | EVENTO_NAVEGACAO
  | EVENTO_SELECAO
  deriving DecidableEq, Repr

structure InputEvent_t where
  tipo : EventoEntradaTipo_t
  linha : Nat
  deriving DecidableEq, Repr

/-- A `char [NUM_LINES][NUMBERS_PER_LINE]` array, row-major. -/
abbrev Grid := List Char

structure RandomizerRequest_t where
  etapa : Nat
  deriving DecidableEq, Repr

structure RandomizerResponse_t where
  etapa : Nat
  matriz : Grid
  deriving DecidableEq, Repr

/-- The tagged union `DisplayCommand_t`: the tag together with the member of
`data` that the sender filled in.  `senha` is the 7-byte buffer, `mensagem`
the C string copied into the 30-byte buffer. -/
inductive DisplayCommand_t where
  | DISP_ATUALIZAR_MATRIZ (matriz : Grid)
  | DISP_ATUALIZAR_SELECAO (linha : Nat)
  | DISP_ATUALIZAR_SENHA (senha : List Char)
  | DISP_MENSAGEM (mensagem : String)
  deriving DecidableEq, Repr

structure AuthResult_t where
  sucesso : Bool
  deriving DecidableEq, Repr

/-- Cell `m[k][l]` of a grid. -/
def celula (m : Grid) (k l : Nat) : Char :=
  m.getD (k * NUMBERS_PER_LINE + l) NUL

/-! ## `task_randomizer` -/

/-- The array `chars` of `task_randomizer` (and of `init_freertos`). -/
def chars : List Char :=
  ['0', '1', '2', '3', '4', '5', '6', '7', '8', '9', 'A', 'B', 'C', 'D', 'E', 'F']

/-- The value returned by the `n`-th call of `get_rand_32` (a `uint32_t`),
for the stream `rnd` of values the hardware generator produces. -/
def get_rand_32 (rnd : Nat → Nat) (n : Nat) : Nat :=
  rnd n % 2 ^ 32

/-- One iteration of the shuffle loop (lines 173-178 and 203-208), on the pair
of `matriz_flat` and the number of random words consumed so far. -/
def embaralhar_passo (rnd : Nat → Nat) (st : List Char × Nat) (i : Nat) : List Char × Nat :=
  let j := i + get_rand_32 rnd st.2 % (TOTAL_CHARS - i)
  let t := st.1.getD j NUL
  let flat1 := st.1.set j (st.1.getD i NUL)
  (flat1.set i t, st.2 + 1)

/-- The shuffle loop `for (i = 0; i < TOTAL_CHARS - 1; i++)`. -/
def embaralhar (rnd : Nat → Nat) (flat : List Char) (n : Nat) : List Char × Nat :=
  (List.range (TOTAL_CHARS - 1)).foldl (embaralhar_passo rnd) (flat, n)

/-- The loop over `l` of lines 190-195 (and 213-218), from column `l` with
`n` columns left: is `novo_caractere` in row `k` of `response.matriz`? -/
def linha_contem (m : Grid) (k : Nat) (c : Char) : Nat → Nat → Bool
  | 0, _ => false
  | n + 1, l => if celula m k l == c then true else linha_contem m k c n (l + 1)

/-- The loop over `k` of lines 189-197 (and 212-220), from row `k` with `n`
rows left before row `i`: the value of `duplicata` after the loop. -/
def tem_duplicata (m : Grid) (c : Char) : Nat → Nat → Bool
  | 0, _ => false
  | n + 1, k =>
    if linha_contem m k c NUMBERS_PER_LINE 0 then true else tem_duplicata m c n (k + 1)

/-- The variables of one run of the fill loops of `task_randomizer`. -/
structure Preenchimento where
  matriz_flat : List Char
  index : Nat
  matriz : Grid
  rng : Nat
  deriving DecidableEq, Repr

/-- The loop `while (duplicata && tentativas < 10)` of lines 200-222 for the
cell of row `i`; the first argument is `10 - tentativas`. -/
def laco_tentativas (rnd : Nat → Nat) (i : Nat) :
    Nat → Preenchimento → Char → Bool → Preenchimento × Char
  | 0, st, c, _ => (st, c)
  | n + 1, st, c, duplicata =>
    if duplicata then
      let st1 : Preenchimento :=
        if st.index ≥ TOTAL_CHARS then
          let r := embaralhar rnd st.matriz_flat st.rng
          { st with index := 0, matriz_flat := r.1, rng := r.2 }
        else st
      let novo := st1.matriz_flat.getD st1.index NUL
      let st2 : Preenchimento := { st1 with index := st1.index + 1 }
      laco_tentativas rnd i n st2 novo (tem_duplicata st2.matriz novo i 0)
    else (st, c)

/-- The body of the loop over `j` (lines 186-223): fills `response.matriz[i][j]`. -/
def preencher_celula (rnd : Nat → Nat) (i : Nat) (st : Preenchimento) (j : Nat) :
    Preenchimento :=
  let novo := st.matriz_flat.getD st.index NUL
  let st1 : Preenchimento := { st with index := st.index + 1 }
  let r := laco_tentativas rnd i 10 st1 novo (tem_duplicata st1.matriz novo i 0)
  { r.1 with matriz := r.1.matriz.set (i * NUMBERS_PER_LINE + j) r.2 }

/-- The loop over `j` for row `i`. -/
def preencher_linha (rnd : Nat → Nat) (st : Preenchimento) (i : Nat) : Preenchimento :=
  (List.range NUMBERS_PER_LINE).foldl (preencher_celula rnd i) st

/-- The loop over `i` of lines 184-225. -/
def preencher (rnd : Nat → Nat) (st : Preenchimento) : Preenchimento :=
  (List.range NUM_LINES).foldl (preencher_linha rnd) st

/-- Lines 170-225 of `task_randomizer`: the response built for `request`,
and the number of random words consumed afterwards.  `n` is the number of
random words consumed before, `lixo` the content of the uninitialised local
`response.matriz`. -/
def task_randomizer_gerar (rnd : Nat → Nat) (n : Nat) (lixo : Grid)
    (request : RandomizerRequest_t) : RandomizerResponse_t × Nat :=
  let r := embaralhar rnd chars n
  let st := preencher rnd { matriz_flat := r.1, index := 0, matriz := lixo, rng := r.2 }
  ({ etapa := request.etapa, matriz := st.matriz }, st.rng)


/-- Loop invariant of the fill loops once `p` cells are written: the pool is
still the permutation `F`, it has been consumed up to `p`, no further random
word was drawn, and the first `p` cells of `response.matriz` are those of `F`. -/
def PreenchimentoOk (F : List Char) (R p : Nat) (st : Preenchimento) : Prop :=
  st.matriz_flat = F ∧ st.index = p ∧ st.rng = R ∧ st.matriz.length = 16 ∧
    ∀ q, q < p → st.matriz.getD q NUL = F.getD q NUL

/-! ## `matrizes_digitos` and the rest of `task_randomizer` -/

/-- The shared array `matrizes_digitos[PIN_LENGTH]`, one grid per step. -/
abbrev Historico := List Grid

/-- The content `init_freertos` gives `matrizes_digitos` (lines 601-608):
`matrizes_digitos[i][j][k] = chars[j * NUMBERS_PER_LINE + k]`. -/
def init_matrizes_digitos : Historico :=
  (List.range PIN_LENGTH).map fun _ =>
    (List.range NUM_LINES).flatMap fun j =>
      (List.range NUMBERS_PER_LINE).map fun k => chars.getD (j * NUMBERS_PER_LINE + k) NUL

/-- What `task_randomizer` reads and writes besides its queues: the shared
history, and the number of random words drawn so far. -/
structure Randomizer where
  matrizes_digitos : Historico
  rng : Nat
  deriving DecidableEq, Repr

/-- The two outward actions of one iteration of `task_randomizer`. -/
inductive AcaoRandomizer where
  /-- Lines 227-229: `memcpy(matrizes_digitos[etapa], response.matriz, ...)`
  between `xSemaphoreTake` and `xSemaphoreGive` of `xMutexMatriz`. -/
  | gravar_historico (etapa : Nat) (matriz : Grid)
  /-- Line 231: `xQueueSend(xQueueRandomizerResponse, &response, portMAX_DELAY)`. -/
  | enviar_resposta (response : RandomizerResponse_t)
  deriving DecidableEq, Repr

/-- One iteration of the loop of `task_randomizer` for a received `request`
(lines 169-232): the new shared state and the actions in program order. -/
def task_randomizer_iter (rnd : Nat → Nat) (lixo : Grid) (s : Randomizer)
    (request : RandomizerRequest_t) : Randomizer × List AcaoRandomizer :=
  let r := task_randomizer_gerar rnd s.rng lixo request
  let response := r.1
  let s1 : Randomizer :=
    { matrizes_digitos := s.matrizes_digitos.set request.etapa response.matriz, rng := r.2 }
  (s1, [.gravar_historico request.etapa response.matriz, .enviar_resposta response])

/-- The iterations of `task_randomizer` for the requests of its queue, in
order.  `lixo k` is what the local `response.matriz` holds at the start of an
iteration entered with `k` random words drawn. -/
def task_randomizer_run (rnd : Nat → Nat) (lixo : Nat → Grid) :
    Randomizer → List RandomizerRequest_t → Randomizer × List AcaoRandomizer
  | s, [] => (s, [])
  | s, request :: rest =>
    let r := task_randomizer_iter rnd (lixo s.rng) s request
    let r2 := task_randomizer_run rnd lixo r.1 rest
    (r2.1, r.2 ++ r2.2)

/-- The responses sent, in order, among a list of actions. -/
def respostas : List AcaoRandomizer → List RandomizerResponse_t
  | [] => []
  | .enviar_resposta r :: rest => r :: respostas rest
  | .gravar_historico _ _ :: rest => respostas rest

/-- The grid of the last response for step `etapa` in a list of responses. -/
def ultima_resposta (etapa : Nat) : List RandomizerResponse_t → Option Grid
  | [] => none
  | r :: rest =>
    match ultima_resposta etapa rest with
    | some g => some g
    | none => if r.etapa = etapa then some r.matriz else none

/-! ## `button_isr` and `task_input` -/

/-- The binary semaphore `xSemaphoreButton` after `button_isr(gpio, events)`:
`xSemaphoreGiveFromISR` leaves a given semaphore given. -/
def button_isr (xSemaphoreButton : Bool) (gpio : Nat) : Bool :=
  if gpio = BUTTON_R then true else xSemaphoreButton

/-- The subtraction `a - b` of two `TickType_t` values (32 bits, unsigned). -/
def tick_sub (a b : Nat) : Nat :=
  (a % 2 ^ 32 + (2 ^ 32 - b % 2 ^ 32)) % 2 ^ 32

/-- The locals of `task_input` that live across iterations of its loop. -/
structure InputState where
  last_button_time : Nat
  last_move_time : Nat
  current_line : Nat
  deriving DecidableEq, Repr

/-- The locals of `task_input` when its loop is first entered (lines 114-117). -/
def task_input_inicio : InputState :=
  { last_button_time := 0, last_move_time := 0, current_line := 0 }

/-- What one iteration of the loop of `task_input` leaves behind. -/
structure InputCiclo where
  estado : InputState
  /-- The events sent to `xQueueInput`, in order. -/
  enviados : List InputEvent_t
  xSemaphoreButton : Bool
  deriving DecidableEq, Repr

/-- Lines 128-140: the pair of `movimento` (with `evento` when it is true) and
`current_line` after the navigation logic. -/
def task_input_navegacao (debounce_move : Nat) (s : InputState) (valor_x current_time : Nat) :
    Option InputEvent_t × Nat :=
  if valor_x < 1500 ∨ valor_x > 2500 then
    if tick_sub current_time s.last_move_time ≥ debounce_move then
      if valor_x < 1500 ∧ s.current_line < NUM_LINES - 1 then
        (some ⟨.EVENTO_NAVEGACAO, (s.current_line + 1) % 256⟩, (s.current_line + 1) % 256)
      else if valor_x > 2500 ∧ s.current_line > 0 then
        (some ⟨.EVENTO_NAVEGACAO, s.current_line - 1⟩, s.current_line - 1)
      else (none, s.current_line)
    else (none, s.current_line)
  else (none, s.current_line)

/-- One iteration of the loop of `task_input` (lines 121-154).
`pdMS_TO_TICKS` is the FreeRTOS macro of that name (it depends on
`configTICK_RATE_HZ`, which `main.c` does not define), `valor_x` the
`uint16_t` returned by `adc_read`, `current_time` the `TickType_t` returned by
`xTaskGetTickCount`, `xSemaphoreButton` whether the semaphore is given when
`xSemaphoreTake` is called. -/
def task_input_ciclo (pdMS_TO_TICKS : Nat → Nat) (s : InputState)
    (valor_x current_time : Nat) (xSemaphoreButton : Bool) : InputCiclo :=
  let debounce_move := pdMS_TO_TICKS 200
  let nav := task_input_navegacao debounce_move s valor_x current_time
  let s1 : InputState := { s with current_line := nav.2 }
  -- lines 142-145
  let r1 : InputState × List InputEvent_t :=
    match nav.1 with
    | some evento => ({ s1 with last_move_time := current_time }, [evento])
    | none => (s1, [])
  -- lines 147-154
  if xSemaphoreButton then
    if tick_sub current_time r1.1.last_button_time > pdMS_TO_TICKS DEBOUNCE_TIME_MS then
      { estado := { r1.1 with last_button_time := current_time },
        enviados := r1.2 ++ [⟨.EVENTO_SELECAO, r1.1.current_line⟩],
        xSemaphoreButton := false }
    else { estado := r1.1, enviados := r1.2, xSemaphoreButton := false }
  else { estado := r1.1, enviados := r1.2, xSemaphoreButton := false }

/-- One sample taken by a poll cycle: the axis value, the tick count, and
whether the button semaphore is given (the interrupt fired since the last
cycle, or an earlier signal is still pending). -/
structure Amostra where
  valor_x : Nat
  current_time : Nat
  botao : Bool
  deriving DecidableEq, Repr

/-- Consecutive poll cycles of `task_input`: the final locals and all the
events sent. -/
def task_input_run (pdMS_TO_TICKS : Nat → Nat) :
    InputState → List Amostra → InputState × List InputEvent_t
  | s, [] => (s, [])
  | s, a :: rest =>
    let c := task_input_ciclo pdMS_TO_TICKS s a.valor_x a.current_time a.botao
    let r := task_input_run pdMS_TO_TICKS c.estado rest
    (r.1, c.enviados ++ r.2)

/-- The number of Navigate events in a list of events. -/
def num_navegacao (evs : List InputEvent_t) : Nat :=
  (evs.filter fun e => e.tipo = .EVENTO_NAVEGACAO).length

/-- The number of Select events in a list of events. -/
def num_selecao (evs : List InputEvent_t) : Nat :=
  (evs.filter fun e => e.tipo = .EVENTO_SELECAO).length

/-- A sample that triggers navigation from row `linha`: the axis is below
1500 with a row below, or above 2500 with a row above. -/
def excursao (valor_x linha : Nat) : Prop :=
  (valor_x < 1500 ∧ linha < 3) ∨ (valor_x > 2500 ∧ linha > 0)

instance (valor_x linha : Nat) : Decidable (excursao valor_x linha) := by
  unfold excursao; infer_instance

/-! ## `task_auth` -/

/-- The array `senha_correta` of `task_auth` (line 393). -/
def senha_correta : List Char := ['1', '2', '3', '4', '5', '6']

/-- The variables of `task_auth` (lines 342-344) and the global
`global_linha_selecionada` that only `task_auth` writes. -/
structure AuthState where
  char_count : Nat
  senha_display : List Char
  linhas_selecionadas : List Nat
  global_linha_selecionada : Nat
  deriving DecidableEq, Repr

/-- A message sent by `task_auth`, with the queue it goes to. -/
inductive Envio where
  /-- `xQueueSend(xQueueRandomizerRequest, ...)`. -/
  | pedido (request : RandomizerRequest_t)
  /-- `xQueueSend(xQueueDisplay, ...)`. -/
  | display (cmd : DisplayCommand_t)
  /-- `xQueueSend(xQueueAuthResult, ...)`. -/
  | resultado (result : AuthResult_t)
  deriving DecidableEq, Repr

/-- The three calls `xQueueReceive(xQueueRandomizerResponse, ..., pdMS_TO_TICKS(1000))`
at which `task_auth` blocks: line 350, line 383 and line 432. -/
inductive Espera where
  | inicial
  | etapa
  | reinicio
  deriving DecidableEq, Repr

/-- The C string held in a buffer: the bytes before the first `NUL`. -/
def cstr (buf : List Char) : List Char :=
  buf.takeWhile fun c => c != NUL

/-- The `n` bytes `strncpy(dst, src, n)` writes to `dst`: the string in `src`
cut at `n` bytes, padded with `NUL`. -/
def strncpy (src : List Char) (n : Nat) : List Char :=
  ((cstr src).take n) ++ List.replicate (n - ((cstr src).take n).length) NUL

/-- The loop over `j` of lines 399-404, from column `j` with `n` columns
left: the value of `digito_valido` after the loop, for the row `linha` of the
grid `m` and the PIN symbol `alvo`. -/
def digito_valido (m : Grid) (linha : Nat) (alvo : Char) : Nat → Nat → Bool
  | 0, _ => false
  | n + 1, j => if celula m linha j == alvo then true else digito_valido m linha alvo n (j + 1)

/-- The loop over `i` of lines 395-411, from position `i` with `n` positions
left: the value of `senha_valida` after the loop. -/
def senha_valida (matrizes_digitos : Historico) (linhas_selecionadas : List Nat) :
    Nat → Nat → Bool
  | 0, _ => true
  | n + 1, i =>
    if digito_valido (matrizes_digitos.getD i []) (linhas_selecionadas.getD i 0)
        (senha_correta.getD i NUL) NUMBERS_PER_LINE 0 then
      senha_valida matrizes_digitos linhas_selecionadas n (i + 1)
    else false

/-- Lines 392-411: the validation of a completed attempt. -/
def validar (matrizes_digitos : Historico) (linhas_selecionadas : List Nat) : Bool :=
  senha_valida matrizes_digitos linhas_selecionadas PIN_LENGTH 0

/-- The variables of `task_auth` and what it has sent when it first blocks
(lines 342-347). -/
def task_auth_inicio : AuthState × List Envio :=
  ({ char_count := 0, senha_display := List.replicate (PIN_LENGTH + 1) NUL,
     linhas_selecionadas := List.replicate PIN_LENGTH 0, global_linha_selecionada := 0 },
   [.pedido ⟨0⟩])

/-- What handling one input event leaves behind, up to the point where
`task_auth` blocks again. -/
structure AuthPasso where
  estado : AuthState
  /-- The messages sent, in order. -/
  envios : List Envio
  /-- The receive on the response queue at which the task now blocks, if it
  does not go back to the input queue. -/
  espera : Option Espera
  deriving DecidableEq, Repr

/-- Lines 362-380 and 391-429: the handling of `evento`, received from
`xQueueInput`, up to the next blocking receive.  `matrizes_digitos` is the
shared history as the validation loop reads it.  (`vTaskDelay` of line 421
changes no variable and sends nothing.) -/
def task_auth_evento (s : AuthState) (matrizes_digitos : Historico) (evento : InputEvent_t) :
    AuthPasso :=
  match evento.tipo with
  | .EVENTO_NAVEGACAO =>
    { estado := { s with global_linha_selecionada := evento.linha },
      envios := [.display (.DISP_ATUALIZAR_SELECAO evento.linha)],
      espera := none }
  | .EVENTO_SELECAO =>
    if s.char_count < PIN_LENGTH then
      let linhas := s.linhas_selecionadas.set s.char_count s.global_linha_selecionada
      let senha := (s.senha_display.set s.char_count '*').set (s.char_count + 1) NUL
      let char_count := (s.char_count + 1) % 256
      let cmd_senha := Envio.display (.DISP_ATUALIZAR_SENHA (strncpy senha (PIN_LENGTH + 1)))
      if char_count < PIN_LENGTH then
        { estado := { s with char_count := char_count, senha_display := senha,
                             linhas_selecionadas := linhas },
          envios := [cmd_senha, .pedido ⟨char_count⟩],
          espera := some .etapa }
      else
        let valida := validar matrizes_digitos linhas
        { estado := { char_count := 0, global_linha_selecionada := 0,
                      senha_display := List.replicate (PIN_LENGTH + 1) NUL,
                      linhas_selecionadas := List.replicate PIN_LENGTH 0 },
          envios := [cmd_senha, .resultado ⟨valida⟩,
                     .display (.DISP_MENSAGEM (if valida then "SENHA CORRETA" else "SENHA INCORRETA")),
                     .pedido ⟨0⟩],
          espera := some .reinicio }
    else { estado := s, envios := [], espera := none }

/-- Lines 351-357 (and 433-439): what follows a successful receive at the
start of an attempt. -/
def task_auth_mostrar_inicial (s : AuthState) (response : RandomizerResponse_t) :
    AuthState × List Envio :=
  ({ s with global_linha_selecionada := 0 },
   [.display (.DISP_ATUALIZAR_MATRIZ response.matriz), .display (.DISP_ATUALIZAR_SELECAO 0)])

/-- The continuation of `task_auth` when the receive `e` returns: `resp` is
the response received, `none` when the 1000 ms wait expired.  Lines 350-358
for `inicial`, 383-390 for `etapa`, 432-444 for `reinicio`. -/
def task_auth_resposta (e : Espera) (s : AuthState) (resp : Option RandomizerResponse_t) :
    AuthState × List Envio :=
  match e with
  | .inicial =>
    match resp with
    | some response => task_auth_mostrar_inicial s response
    | none => (s, [])
  | .etapa =>
    match resp with
    | some response =>
      (s, [.display (.DISP_ATUALIZAR_MATRIZ response.matriz),
           .display (.DISP_ATUALIZAR_SELECAO s.global_linha_selecionada)])
    | none => (s, [])
  | .reinicio =>
    let r : AuthState × List Envio :=
      match resp with
      | some response => task_auth_mostrar_inicial s response
      | none => (s, [])
    (r.1, r.2 ++ [.display (.DISP_ATUALIZAR_SENHA (strncpy [] (PIN_LENGTH + 1)))])

/-- One full iteration of the loop of `task_auth` (lines 361-448) for the
event `evento`, where `resp` is what the receive on the response queue
returns if the iteration reaches one. -/
def task_auth_tratar (s : AuthState) (matrizes_digitos : Historico) (evento : InputEvent_t)
    (resp : Option RandomizerResponse_t) : AuthState × List Envio :=
  let p := task_auth_evento s matrizes_digitos evento
  match p.espera with
  | none => (p.estado, p.envios)
  | some e =>
    let r := task_auth_resposta e p.estado resp
    (r.1, p.envios ++ r.2)

/-- The requests among the messages sent by `task_auth`. -/
def pedidos : List Envio → List RandomizerRequest_t
  | [] => []
  | .pedido r :: rest => r :: pedidos rest
  | _ :: rest => pedidos rest

/-- The results among the messages sent by `task_auth`. -/
def resultados : List Envio → List AuthResult_t
  | [] => []
  | .resultado r :: rest => r :: resultados rest
  | _ :: rest => resultados rest

/-- The grid of the last `DISP_ATUALIZAR_MATRIZ` command among the messages
sent by `task_auth`: the grid on display. -/
def matriz_exibida : List Envio → Option Grid
  | [] => none
  | m :: rest =>
    match matriz_exibida rest with
    | some g => some g
    | none =>
      match m with
      | .display (.DISP_ATUALIZAR_MATRIZ g) => some g
      | _ => none

/-! ## `task_auth` composed with `task_randomizer`

The schedule in which every grid request is answered before the 1000 ms wait
of `task_auth` expires: whenever `task_auth` blocks on the response queue,
`task_randomizer` serves the requests of its queue and `task_auth` receives
the head of the response queue. -/

/-- The state of the two tasks, the response queue between them, and all the
messages `task_auth` has sent so far (in order). -/
structure Sistema where
  auth : AuthState
  rand : Randomizer
  xQueueRandomizerResponse : List RandomizerResponse_t
  enviados : List Envio
  deriving DecidableEq, Repr

/-- Here `task_auth`, with variables `st`, has just sent `envios` and blocks at
the receive `e`: `task_randomizer` runs, then the receive returns. -/
def sistema_atender (rnd : Nat → Nat) (lixo : Nat → Grid) (sis : Sistema) (st : AuthState)
    (envios : List Envio) (e : Espera) : Sistema :=
  let r := task_randomizer_run rnd lixo sis.rand (pedidos envios)
  let fila := sis.xQueueRandomizerResponse ++ respostas r.2
  let a := task_auth_resposta e st fila.head?
  { auth := a.1, rand := r.1, xQueueRandomizerResponse := fila.tail,
    enviados := sis.enviados ++ envios ++ a.2 }

/-- The system when `task_auth` first waits for an input event: after
`init_freertos` and lines 342-358 of `task_auth`. -/
def sistema_inicio (rnd : Nat → Nat) (lixo : Nat → Grid) : Sistema :=
  sistema_atender rnd lixo
    { auth := task_auth_inicio.1, rand := { matrizes_digitos := init_matrizes_digitos, rng := 0 },
      xQueueRandomizerResponse := [], enviados := [] }
    task_auth_inicio.1 task_auth_inicio.2 .inicial

/-- The system after `task_auth` has handled one more input event. -/
def sistema_evento (rnd : Nat → Nat) (lixo : Nat → Grid) (sis : Sistema) (evento : InputEvent_t) :
    Sistema :=
  let p := task_auth_evento sis.auth sis.rand.matrizes_digitos evento
  match p.espera with
  | none => { sis with auth := p.estado, enviados := sis.enviados ++ p.envios }
  | some e => sistema_atender rnd lixo sis p.estado p.envios e

/-- What an observer records at a validation: the history the validation loop
reads, and the grid that was on display when each of the selections of the
attempt was committed. -/
structure Validacao where
  matrizes_digitos : Historico
  exibidas : List (Option Grid)
  deriving DecidableEq, Repr

/-- The system together with the record of an observer: the grids on display
at the selections committed so far in the current attempt, and the
validations that have taken place. -/
structure Observacao where
  sis : Sistema
  exibidas : List (Option Grid)
  validacoes : List Validacao
  deriving DecidableEq, Repr

/-- The observer's record across one input event.  A selection is committed
when a Select event is handled with `char_count < PIN_LENGTH`; a validation
has taken place when an `AuthResult_t` was sent. -/
def observar_evento (rnd : Nat → Nat) (lixo : Nat → Grid) (o : Observacao)
    (evento : InputEvent_t) : Observacao :=
  let p := task_auth_evento o.sis.auth o.sis.rand.matrizes_digitos evento
  let sis := sistema_evento rnd lixo o.sis evento
  if evento.tipo = .EVENTO_SELECAO ∧ o.sis.auth.char_count < PIN_LENGTH then
    let exibidas := o.exibidas ++ [matriz_exibida o.sis.enviados]
    if resultados p.envios ≠ [] then
      { sis := sis, exibidas := [],
        validacoes := o.validacoes ++ [⟨o.sis.rand.matrizes_digitos, exibidas⟩] }
    else { sis := sis, exibidas := exibidas, validacoes := o.validacoes }
  else { sis := sis, exibidas := o.exibidas, validacoes := o.validacoes }

/-- The observer's record after the input events `evs`, from start-up. -/
def observar (rnd : Nat → Nat) (lixo : Nat → Grid) (evs : List InputEvent_t) : Observacao :=
  evs.foldl (observar_evento rnd lixo) { sis := sistema_inicio rnd lixo, exibidas := [], validacoes := [] }

/-- What holds of the observer's record whenever `task_auth` waits for an
input event: the response queue is empty, fewer than `PIN_LENGTH` rows are
committed, the grid recorded at each committed selection is the history entry
of its position, the grid on display is the history entry of the current
position, and every validation so far read a history equal to the grids
recorded at the six selections. -/
def ObservacaoOk (o : Observacao) : Prop :=
  o.sis.xQueueRandomizerResponse = [] ∧
  o.sis.rand.matrizes_digitos.length = PIN_LENGTH ∧
  o.sis.auth.char_count = o.exibidas.length ∧
  o.sis.auth.char_count < PIN_LENGTH ∧
  (∀ i, i < o.exibidas.length →
    o.exibidas.getD i none = some (o.sis.rand.matrizes_digitos.getD i [])) ∧
  matriz_exibida o.sis.enviados =
    some (o.sis.rand.matrizes_digitos.getD o.sis.auth.char_count []) ∧
  (∀ v ∈ o.validacoes, v.exibidas.length = PIN_LENGTH ∧
    ∀ i, i < PIN_LENGTH → v.exibidas.getD i none = some (v.matrizes_digitos.getD i []))

/-! ## `task_auth`: the session across input events -/

/-- Lines 369-376 of `task_auth`: the recording of a selection.  The
variables after `char_count++`, and the password command sent. -/
def task_auth_registrar (s : AuthState) : AuthState × Envio :=
  let linhas := s.linhas_selecionadas.set s.char_count s.global_linha_selecionada
  let senha := (s.senha_display.set s.char_count '*').set (s.char_count + 1) NUL
  ({ s with char_count := (s.char_count + 1) % 256, senha_display := senha,
            linhas_selecionadas := linhas },
   .display (.DISP_ATUALIZAR_SENHA (strncpy senha (PIN_LENGTH + 1))))

/-- What comes with one input event: the event, the shared history as a
validation in this iteration reads it, and what the receive on the response
queue returns if the iteration reaches one (`none`: the wait expired). -/
structure Entrada where
  evento : InputEvent_t
  matrizes_digitos : Historico
  resp : Option RandomizerResponse_t
  deriving DecidableEq, Repr

/-- Consecutive iterations of the loop of `task_auth`: the final variables
and all the messages sent. -/
def task_auth_run : AuthState → List Entrada → AuthState × List Envio
  | s, [] => (s, [])
  | s, e :: rest =>
    let r := task_auth_tratar s e.matrizes_digitos e.evento e.resp
    let r2 := task_auth_run r.1 rest
    (r2.1, r.2 ++ r2.2)

/-- The whole of `task_auth` (lines 342-450) for a finite sequence of input
events: `resp0` is what the receive of line 350 returns. -/
def task_auth_desde_inicio (resp0 : Option RandomizerResponse_t) (entradas : List Entrada) :
    AuthState × List Envio :=
  let a := task_auth_resposta .inicial task_auth_inicio.1 resp0
  let r := task_auth_run a.1 entradas
  (r.1, task_auth_inicio.2 ++ a.2 ++ r.2)

/-- The session invariant: fewer than `PIN_LENGTH` rows committed, the mask
buffer holds `char_count` stars followed by `NUL` bytes, the selected-rows
array has its `PIN_LENGTH` entries, all of them rows of the grid, and the
highlighted row is a row of the grid. -/
def SessaoOk (s : AuthState) : Prop :=
  s.char_count < PIN_LENGTH ∧
  s.senha_display =
    List.replicate s.char_count '*' ++ List.replicate (PIN_LENGTH + 1 - s.char_count) NUL ∧
  s.linhas_selecionadas.length = PIN_LENGTH ∧
  (∀ l ∈ s.linhas_selecionadas, l < NUM_LINES) ∧
  s.global_linha_selecionada < NUM_LINES

/-- A command that draws the grid or the cursor. -/
def desenha_matriz_ou_cursor : Envio → Bool
  | .display (.DISP_ATUALIZAR_MATRIZ _) => true
  | .display (.DISP_ATUALIZAR_SELECAO _) => true
  | _ => false

/-! ## Lemmas on the shuffle -/

theorem troca_perm (l : List Char) (i j : Nat) (hi : i < l.length) (hj : j < l.length) :
    ((l.set j (l.getD i NUL)).set i (l.getD j NUL)).Perm l := by
  rw [List.perm_iff_count]
  intro a
  rw [List.count_set _ _ _ _ (by simpa using hi), List.count_set _ _ _ _ hj]
  simp only [List.getD_eq_getElem _ _ hi, List.getD_eq_getElem _ _ hj, List.getElem_set]
  have h1 : 0 < l.count l[i] := List.count_pos_iff.mpr (List.getElem_mem _)
  have h2 : 0 < l.count l[j] := List.count_pos_iff.mpr (List.getElem_mem _)
  by_cases hij : j = i
  · subst hij
    by_cases ha : l[j] = a
    · subst ha; simp
    · simp [ha]
  · by_cases ha : l[i] = a <;> by_cases hb : l[j] = a
    · simp [hij, ha, hb]; subst ha; omega
    · simp [hij, ha, hb]
    · simp [hij, ha, hb]; subst hb; omega
    · simp [hij, ha, hb]

theorem embaralhar_passo_perm (rnd : Nat → Nat) (st : List Char × Nat) (i : Nat)
    (hi : i < TOTAL_CHARS - 1) (hp : st.1.Perm chars) :
    (embaralhar_passo rnd st i).1.Perm chars ∧ (embaralhar_passo rnd st i).2 = st.2 + 1 := by
  have hlen : st.1.length = 16 := by rw [hp.length_eq]; rfl
  have hj : i + get_rand_32 rnd st.2 % (TOTAL_CHARS - i) < st.1.length := by
    have : get_rand_32 rnd st.2 % (TOTAL_CHARS - i) < TOTAL_CHARS - i :=
      Nat.mod_lt _ (by simp only [TOTAL_CHARS] at hi ⊢; omega)
    simp only [TOTAL_CHARS] at hi this ⊢; omega
  refine ⟨?_, rfl⟩
  exact (troca_perm st.1 i _ (by simp only [TOTAL_CHARS] at hi; omega) hj).trans hp

theorem foldl_passo_perm (rnd : Nat → Nat) (is : List Nat) (st : List Char × Nat)
    (his : ∀ i ∈ is, i < TOTAL_CHARS - 1) (hp : st.1.Perm chars) :
    (is.foldl (embaralhar_passo rnd) st).1.Perm chars ∧
    (is.foldl (embaralhar_passo rnd) st).2 = st.2 + is.length := by
  induction is generalizing st with
  | nil => exact ⟨hp, rfl⟩
  | cons i is ih =>
    have h1 := embaralhar_passo_perm rnd st i (his i (List.mem_cons_self _ _)) hp
    have h2 := ih (embaralhar_passo rnd st i) (fun k hk => his k (List.mem_cons_of_mem _ hk)) h1.1
    simp only [List.foldl_cons, List.length_cons]
    refine ⟨h2.1, ?_⟩
    rw [h2.2, h1.2]; omega

theorem embaralhar_perm (rnd : Nat → Nat) (flat : List Char) (n : Nat) (hp : flat.Perm chars) :
    (embaralhar rnd flat n).1.Perm chars ∧ (embaralhar rnd flat n).2 = n + 15 := by
  have h := foldl_passo_perm rnd (List.range (TOTAL_CHARS - 1)) (flat, n)
    (fun i hi => List.mem_range.mp hi) hp
  exact ⟨h.1, by rw [embaralhar, h.2]; simp⟩

/-! ## Lemmas on the fill loops -/

theorem linha_contem_false (m : Grid) (k : Nat) (c : Char) (n l : Nat)
    (h : ∀ l', l ≤ l' → l' < l + n → celula m k l' ≠ c) : linha_contem m k c n l = false := by
  induction n generalizing l with
  | zero => rfl
  | succ n ih =>
    have h0 : celula m k l ≠ c := h l (Nat.le_refl _) (by omega)
    simp only [linha_contem, beq_iff_eq, h0, if_false]
    exact ih (l + 1) (fun l' h1 h2 => h l' (by omega) (by omega))

theorem tem_duplicata_false (m : Grid) (c : Char) (n k : Nat)
    (h : ∀ k' l', k ≤ k' → k' < k + n → l' < NUMBERS_PER_LINE → celula m k' l' ≠ c) :
    tem_duplicata m c n k = false := by
  induction n generalizing k with
  | zero => rfl
  | succ n ih =>
    have h0 : linha_contem m k c NUMBERS_PER_LINE 0 = false :=
      linha_contem_false m k c _ 0 (fun l' _ h2 => h k l' (Nat.le_refl _) (by omega) (by omega))
    simp only [tem_duplicata, h0, Bool.false_eq_true, if_false]
    exact ih (k + 1) (fun k' l' h1 h2 h3 => h k' l' (by omega) (by omega) h3)

theorem getD_ne_of_nodup (F : List Char) (hF : F.Nodup) (p q : Nat) (hp : p < F.length)
    (hq : q < F.length) (hpq : q ≠ p) : F.getD q NUL ≠ F.getD p NUL := by
  rw [List.getD_eq_getElem _ _ hp, List.getD_eq_getElem _ _ hq]
  intro h
  exact hpq ((List.Nodup.getElem_inj_iff hF).mp h)

theorem laco_tentativas_sem_duplicata (rnd : Nat → Nat) (i n : Nat) (st : Preenchimento)
    (c : Char) : laco_tentativas rnd i n st c false = (st, c) := by
  cases n <;> rfl

theorem preencher_celula_inv (rnd : Nat → Nat) (F : List Char) (hF : F.Nodup)
    (hlen : F.length = 16) (i j : Nat) (hi : i < NUM_LINES) (hj : j < NUMBERS_PER_LINE)
    (st : Preenchimento) (h1 : st.matriz_flat = F) (h2 : st.index = i * NUMBERS_PER_LINE + j)
    (h3 : st.matriz.length = 16)
    (h4 : ∀ q, q < i * NUMBERS_PER_LINE + j → st.matriz.getD q NUL = F.getD q NUL) :
    (preencher_celula rnd i st j).matriz_flat = F ∧
    (preencher_celula rnd i st j).index = i * NUMBERS_PER_LINE + j + 1 ∧
    (preencher_celula rnd i st j).rng = st.rng ∧
    (preencher_celula rnd i st j).matriz.length = 16 ∧
    ∀ q, q < i * NUMBERS_PER_LINE + j + 1 →
      (preencher_celula rnd i st j).matriz.getD q NUL = F.getD q NUL := by
  simp only [NUM_LINES, NUMBERS_PER_LINE] at hi hj h2 h4 ⊢
  have hdup : tem_duplicata st.matriz (st.matriz_flat.getD st.index NUL) i 0 = false := by
    apply tem_duplicata_false
    intro k' l' _ hk hl
    simp only [NUMBERS_PER_LINE] at hl
    rw [celula, h4 _ (by simp only [NUMBERS_PER_LINE]; omega), h1, h2]
    exact getD_ne_of_nodup F hF _ _ (by omega) (by simp only [NUMBERS_PER_LINE]; omega)
      (by simp only [NUMBERS_PER_LINE]; omega)
  have hr : preencher_celula rnd i st j =
      { st with index := st.index + 1,
                matriz := st.matriz.set (i * 4 + j) (st.matriz_flat.getD st.index NUL) } := by
    simp only [preencher_celula, hdup, laco_tentativas_sem_duplicata]
  rw [hr]
  refine ⟨h1, by simp [h2], rfl, by simp [h3], ?_⟩
  intro q hq
  by_cases hqe : q = i * 4 + j
  · subst hqe
    simp only [h1, h2]
    rw [List.getD_eq_getElem _ _ (by simp only [List.length_set]; omega)]
    simp
  · have hq2 : q < i * 4 + j := by omega
    rw [← h4 q hq2]
    simp only [List.getD_eq_getElem?_getD]
    rw [List.getElem?_set_ne (by omega)]

theorem preencher_celula_ok (rnd : Nat → Nat) (F : List Char) (hF : F.Nodup)
    (hlen : F.length = 16) (R i j : Nat) (hi : i < NUM_LINES) (hj : j < NUMBERS_PER_LINE)
    (st : Preenchimento) (h : PreenchimentoOk F R (i * NUMBERS_PER_LINE + j) st) :
    PreenchimentoOk F R (i * NUMBERS_PER_LINE + j + 1) (preencher_celula rnd i st j) := by
  obtain ⟨h1, h2, h3, h4, h5⟩ := h
  have := preencher_celula_inv rnd F hF hlen i j hi hj st h1 h2 h4 h5
  exact ⟨this.1, this.2.1, this.2.2.1.trans h3, this.2.2.2.1, this.2.2.2.2⟩

theorem preencher_linha_ok (rnd : Nat → Nat) (F : List Char) (hF : F.Nodup)
    (hlen : F.length = 16) (R i : Nat) (hi : i < NUM_LINES)
    (st : Preenchimento) (h : PreenchimentoOk F R (i * NUMBERS_PER_LINE) st) :
    PreenchimentoOk F R ((i + 1) * NUMBERS_PER_LINE) (preencher_linha rnd st i) := by
  have e : List.range NUMBERS_PER_LINE = [0, 1, 2, 3] := rfl
  simp only [preencher_linha, e, List.foldl]
  have a0 := preencher_celula_ok rnd F hF hlen R i 0 hi (by decide) st h
  have a1 := preencher_celula_ok rnd F hF hlen R i 1 hi (by decide) _ a0
  have a2 := preencher_celula_ok rnd F hF hlen R i 2 hi (by decide) _ a1
  have a3 := preencher_celula_ok rnd F hF hlen R i 3 hi (by decide) _ a2
  have e2 : (i + 1) * NUMBERS_PER_LINE = i * NUMBERS_PER_LINE + 3 + 1 := by
    simp only [NUMBERS_PER_LINE]; omega
  rw [e2]; exact a3

theorem preencher_ok (rnd : Nat → Nat) (F : List Char) (hF : F.Nodup)
    (hlen : F.length = 16) (R : Nat) (st : Preenchimento) (h : PreenchimentoOk F R 0 st) :
    PreenchimentoOk F R 16 (preencher rnd st) := by
  have e : List.range NUM_LINES = [0, 1, 2, 3] := rfl
  simp only [preencher, e, List.foldl]
  have a0 := preencher_linha_ok rnd F hF hlen R 0 (by decide) st h
  have a1 := preencher_linha_ok rnd F hF hlen R 1 (by decide) _ a0
  have a2 := preencher_linha_ok rnd F hF hlen R 2 (by decide) _ a1
  exact preencher_linha_ok rnd F hF hlen R 3 (by decide) _ a2

theorem chars_nodup : chars.Nodup := by decide

theorem preencher_eq (rnd : Nat → Nat) (F : List Char) (hF : F.Nodup)
    (hlen : F.length = 16) (R : Nat) (lixo : Grid) (hl : lixo.length = 16) :
    preencher rnd { matriz_flat := F, index := 0, matriz := lixo, rng := R } =
      { matriz_flat := F, index := 16, matriz := F, rng := R } := by
  have h := preencher_ok rnd F hF hlen R
    { matriz_flat := F, index := 0, matriz := lixo, rng := R }
    ⟨rfl, rfl, rfl, hl, fun q hq => absurd hq (Nat.not_lt_zero q)⟩
  generalize preencher rnd { matriz_flat := F, index := 0, matriz := lixo, rng := R } = st at h
  obtain ⟨h1, h2, h3, h4, h5⟩ := h
  have hm : st.matriz = F := by
    apply List.ext_getElem (by rw [h4, hlen])
    intro q hq1 hq2
    have := h5 q (by omega)
    rwa [List.getD_eq_getElem _ _ hq1, List.getD_eq_getElem _ _ hq2] at this
  cases st
  simp only at h1 h2 h3 hm
  subst h1 h2 h3 hm
  rfl

/-- The grid of the response is the shuffled pool itself: the retry loop never
runs, whatever the uninitialised `response.matriz` held. -/
theorem task_randomizer_gerar_eq (rnd : Nat → Nat) (n : Nat) (lixo : Grid)
    (request : RandomizerRequest_t) (hl : lixo.length = 16) :
    task_randomizer_gerar rnd n lixo request =
      (⟨request.etapa, (embaralhar rnd chars n).1⟩, n + 15) := by
  have hp := embaralhar_perm rnd chars n (List.Perm.refl _)
  have hF : (embaralhar rnd chars n).1.Nodup := hp.1.nodup_iff.mpr chars_nodup
  have hlen : (embaralhar rnd chars n).1.length = 16 := by rw [hp.1.length_eq]; rfl
  have h2 := hp.2
  rw [task_randomizer_gerar]
  generalize embaralhar rnd chars n = r at hF hlen h2 ⊢
  obtain ⟨F, R⟩ := r
  simp only at hF hlen h2 ⊢
  rw [preencher_eq rnd F hF hlen R lixo hl, h2]

/-- C1: for every requested step, every stream of values of `get_rand_32` and
every prior content of the local `response.matriz`, the grid of the response
of `task_randomizer`, read row-major, is a permutation of the alphabet
`chars`: it has 16 cells, pairwise distinct, each a symbol of the alphabet.
The response sent by an iteration of the task is that response. -/
theorem task_randomizer_grid_perm (rnd : Nat → Nat) (n : Nat) (lixo : Grid)
    (request : RandomizerRequest_t) (hl : lixo.length = TOTAL_CHARS) :
    (task_randomizer_gerar rnd n lixo request).1.matriz.Perm chars ∧
    (task_randomizer_gerar rnd n lixo request).1.matriz.length = TOTAL_CHARS ∧
    (task_randomizer_gerar rnd n lixo request).1.matriz.Nodup ∧
    (∀ c ∈ (task_randomizer_gerar rnd n lixo request).1.matriz, c ∈ chars) ∧
    (∀ c ∈ chars, c ∈ (task_randomizer_gerar rnd n lixo request).1.matriz) ∧
    (∀ hist : Historico,
      respostas (task_randomizer_iter rnd lixo ⟨hist, n⟩ request).2 =
        [(task_randomizer_gerar rnd n lixo request).1]) := by
  refine ⟨?_, ?_, ?_, ?_, ?_, fun hist => by simp only [task_randomizer_iter, respostas]⟩
  all_goals rw [task_randomizer_gerar_eq rnd n lixo request hl]
  all_goals have hp := (embaralhar_perm rnd chars n (List.Perm.refl _)).1
  all_goals generalize (embaralhar rnd chars n).1 = F at hp
  all_goals simp only
  · exact hp
  · rw [hp.length_eq]; rfl
  · exact hp.nodup_iff.mpr chars_nodup
  · exact fun c hc => hp.mem_iff.mp hc
  · exact fun c hc => hp.mem_iff.mpr hc

set_option maxRecDepth 100000 in
theorem task_randomizer_grid_perm_witness :
    (task_randomizer_gerar (fun k => k * 7919 + 13) 0 (List.replicate 16 'x') ⟨2⟩).1.matriz
        = ['D', '0', '5', '9', '1', '4', '2', '6', '7', 'C', '8', 'A', 'B', '3', 'F', 'E'] ∧
      (task_randomizer_gerar (fun k => k * 7919 + 13) 0 (List.replicate 16 'x')
        ⟨2⟩).1.matriz.Perm chars :=
  ⟨by decide, (task_randomizer_grid_perm (fun k => k * 7919 + 13) 0 (List.replicate 16 'x') ⟨2⟩
    (by decide)).1⟩


/-! ## Validation (`task_auth`, lines 392-411) -/

theorem digito_valido_iff (m : Grid) (linha : Nat) (alvo : Char) (n j : Nat) :
    digito_valido m linha alvo n j = true ↔
      ∃ j', j ≤ j' ∧ j' < j + n ∧ celula m linha j' = alvo := by
  induction n generalizing j with
  | zero =>
    simp only [digito_valido, Bool.false_eq_true, false_iff]
    rintro ⟨j', h1, h2, _⟩
    omega
  | succ n ih =>
    by_cases h0 : celula m linha j = alvo
    · simp only [digito_valido, h0, beq_self_eq_true, if_true, true_iff]
      exact ⟨j, Nat.le_refl _, by omega, h0⟩
    · simp only [digito_valido, beq_iff_eq, h0, if_false, ih]
      constructor
      · rintro ⟨j', h1, h2, h3⟩
        exact ⟨j', by omega, by omega, h3⟩
      · rintro ⟨j', h1, h2, h3⟩
        have hne : j' ≠ j := fun e => h0 (e ▸ h3)
        exact ⟨j', by omega, by omega, h3⟩

theorem senha_valida_iff (hist : Historico) (linhas : List Nat) (n i : Nat) :
    senha_valida hist linhas n i = true ↔
      ∀ i', i ≤ i' → i' < i + n →
        digito_valido (hist.getD i' []) (linhas.getD i' 0) (senha_correta.getD i' NUL)
          NUMBERS_PER_LINE 0 = true := by
  induction n generalizing i with
  | zero =>
    simp only [senha_valida, true_iff]
    intro i' h1 h2
    omega
  | succ n ih =>
    by_cases h0 : digito_valido (hist.getD i []) (linhas.getD i 0) (senha_correta.getD i NUL)
        NUMBERS_PER_LINE 0 = true
    · simp only [senha_valida, h0, if_true, ih]
      constructor
      · intro h i' h1 h2
        by_cases e : i' = i
        · subst e; exact h0
        · exact h i' (by omega) (by omega)
      · intro h i' h1 h2
        exact h i' (by omega) (by omega)
    · simp only [senha_valida, h0, if_false, Bool.false_eq_true, false_iff]
      intro h
      exact h0 (h i (Nat.le_refl _) (by omega))

/-- The validation succeeds exactly when every PIN symbol is in the selected
row of the grid recorded for its position. -/
theorem validar_iff (hist : Historico) (linhas : List Nat) :
    validar hist linhas = true ↔
      ∀ i, i < PIN_LENGTH → ∃ j, j < NUMBERS_PER_LINE ∧
        celula (hist.getD i []) (linhas.getD i 0) j = senha_correta.getD i NUL := by
  rw [validar, senha_valida_iff]
  constructor
  · intro h i hi
    obtain ⟨j, _, h2, h3⟩ := (digito_valido_iff _ _ _ _ _).mp (h i (Nat.zero_le _) (by omega))
    exact ⟨j, by omega, h3⟩
  · intro h i _ hi
    obtain ⟨j, h2, h3⟩ := h i (by omega)
    exact (digito_valido_iff _ _ _ _ _).mpr ⟨j, Nat.zero_le _, by omega, h3⟩

/-- C2: the validation at the end of an attempt succeeds if and only if, for
every position `i` below `PIN_LENGTH`, the PIN symbol `senha_correta[i]` is in
some column of row `linhas_selecionadas[i]` of `matrizes_digitos[i]`; so one
position whose selected row lacks its PIN symbol makes the result false,
whatever the other positions hold. -/
theorem validar_contencao_por_linha (hist : Historico) (linhas : List Nat) :
    (validar hist linhas = true ↔
      ∀ i, i < PIN_LENGTH → ∃ j, j < NUMBERS_PER_LINE ∧
        celula (hist.getD i []) (linhas.getD i 0) j = senha_correta.getD i NUL) ∧
    (∀ i, i < PIN_LENGTH →
      (∀ j, j < NUMBERS_PER_LINE →
        celula (hist.getD i []) (linhas.getD i 0) j ≠ senha_correta.getD i NUL) →
      validar hist linhas = false) := by
  refine ⟨validar_iff hist linhas, ?_⟩
  intro i hi hno
  rw [← Bool.not_eq_true, validar_iff]
  intro h
  obtain ⟨j, hj, hc⟩ := h i hi
  exact hno j hj hc

theorem validar_contencao_por_linha_witness :
    validar init_matrizes_digitos [0, 0, 0, 1, 1, 1] = true ∧
    validar init_matrizes_digitos [0, 0, 0, 0, 1, 1] = false :=
  ⟨by decide,
   (validar_contencao_por_linha init_matrizes_digitos [0, 0, 0, 0, 1, 1]).2 3 (by decide)
     (by decide)⟩

/-! ## History consistency (`task_randomizer`, lines 227-231) -/

theorem respostas_append (a b : List AcaoRandomizer) :
    respostas (a ++ b) = respostas a ++ respostas b := by
  induction a with
  | nil => rfl
  | cons x a ih => cases x <;> simp [respostas, ih]

theorem task_randomizer_gerar_etapa (rnd : Nat → Nat) (n : Nat) (l : Grid)
    (request : RandomizerRequest_t) :
    (task_randomizer_gerar rnd n l request).1.etapa = request.etapa := rfl

theorem task_randomizer_iter_acoes (rnd : Nat → Nat) (l : Grid) (s : Randomizer)
    (request : RandomizerRequest_t) :
    (task_randomizer_iter rnd l s request).2 =
      [.gravar_historico request.etapa (task_randomizer_gerar rnd s.rng l request).1.matriz,
       .enviar_resposta ⟨request.etapa, (task_randomizer_gerar rnd s.rng l request).1.matriz⟩] := by
  simp only [task_randomizer_iter]
  generalize hr : (task_randomizer_gerar rnd s.rng l request).1 = r
  have he : r.etapa = request.etapa := by rw [← hr]; rfl
  cases r
  simp only at he
  rw [he]

theorem task_randomizer_iter_length (rnd : Nat → Nat) (l : Grid) (s : Randomizer)
    (request : RandomizerRequest_t) :
    (task_randomizer_iter rnd l s request).1.matrizes_digitos.length =
      s.matrizes_digitos.length := by
  simp [task_randomizer_iter]

theorem task_randomizer_run_historico (rnd : Nat → Nat) (lixo : Nat → Grid)
    (reqs : List RandomizerRequest_t) (s : Randomizer)
    (hreqs : ∀ r ∈ reqs, r.etapa < s.matrizes_digitos.length) (t : Nat) :
    (task_randomizer_run rnd lixo s reqs).1.matrizes_digitos.length = s.matrizes_digitos.length ∧
    (task_randomizer_run rnd lixo s reqs).1.matrizes_digitos.getD t [] =
      (ultima_resposta t (respostas (task_randomizer_run rnd lixo s reqs).2)).getD
        (s.matrizes_digitos.getD t []) := by
  induction reqs generalizing s with
  | nil => exact ⟨rfl, rfl⟩
  | cons request rest ih =>
    have hl := task_randomizer_iter_length rnd (lixo s.rng) s request
    have h := ih (task_randomizer_iter rnd (lixo s.rng) s request).1
      (fun r hr => by rw [hl]; exact hreqs r (List.mem_cons_of_mem _ hr))
    have hreq : request.etapa < s.matrizes_digitos.length := hreqs request (List.mem_cons_self _ _)
    simp only [task_randomizer_run]
    refine ⟨h.1.trans hl, ?_⟩
    rw [h.2, respostas_append]
    generalize (task_randomizer_run rnd lixo
      (task_randomizer_iter rnd (lixo s.rng) s request).1 rest).2 = log
    simp only [task_randomizer_iter, respostas, List.cons_append, List.nil_append,
      ultima_resposta, List.append_eq, task_randomizer_gerar_etapa]
    generalize ultima_resposta t (respostas log) = u
    cases u with
    | some g => rfl
    | none =>
      by_cases e : request.etapa = t
      · subst e
        simp only [if_true, Option.getD_some, Option.getD_none]
        rw [List.getD_eq_getElem _ _ (by simpa using hreq)]
        simp
      · simp only [e, if_false, Option.getD_none, List.getD_eq_getElem?_getD]
        rw [List.getElem?_set_ne e]

/-- C4: for a history of `PIN_LENGTH` grids and a request for a step below
`PIN_LENGTH`, one iteration of `task_randomizer` first writes a grid to
`matrizes_digitos[etapa]` and then sends the response, which carries the same
step and the same grid; afterwards `matrizes_digitos[etapa]` is that grid and
every other entry is unchanged.  Hence after any sequence of such requests,
`matrizes_digitos[t]` is the grid of the last response sent for step `t`. -/
theorem task_randomizer_historico (rnd : Nat → Nat) (lixo : Nat → Grid) (s : Randomizer)
    (hlen : s.matrizes_digitos.length = PIN_LENGTH) :
    (∀ (l : Grid) (request : RandomizerRequest_t), request.etapa < PIN_LENGTH →
      ∃ g : Grid,
        (task_randomizer_iter rnd l s request).2 =
          [.gravar_historico request.etapa g, .enviar_resposta ⟨request.etapa, g⟩] ∧
        (task_randomizer_iter rnd l s request).1.matrizes_digitos.getD request.etapa [] = g ∧
        (task_randomizer_iter rnd l s request).1.matrizes_digitos.length = PIN_LENGTH ∧
        ∀ t, t ≠ request.etapa →
          (task_randomizer_iter rnd l s request).1.matrizes_digitos.getD t [] =
            s.matrizes_digitos.getD t []) ∧
    (∀ reqs : List RandomizerRequest_t, (∀ r ∈ reqs, r.etapa < PIN_LENGTH) →
      ∀ (t : Nat) (g : Grid),
        ultima_resposta t (respostas (task_randomizer_run rnd lixo s reqs).2) = some g →
        (task_randomizer_run rnd lixo s reqs).1.matrizes_digitos.getD t [] = g) := by
  constructor
  · intro l request hreq
    refine ⟨(task_randomizer_gerar rnd s.rng l request).1.matriz,
      task_randomizer_iter_acoes rnd l s request, ?_, ?_, ?_⟩
    · simp only [task_randomizer_iter]
      rw [List.getD_eq_getElem _ _ (by simpa [hlen] using hreq)]
      simp
    · rw [task_randomizer_iter_length, hlen]
    · intro t ht
      simp only [task_randomizer_iter, List.getD_eq_getElem?_getD]
      rw [List.getElem?_set_ne (Ne.symm ht)]
  · intro reqs hreqs t g hg
    rw [(task_randomizer_run_historico rnd lixo reqs s (by rw [hlen]; exact hreqs) t).2, hg]
    rfl

set_option maxRecDepth 100000 in
theorem task_randomizer_historico_witness :
    (task_randomizer_run (fun k => k * 7919 + 13) (fun _ => List.replicate 16 'x')
        ⟨init_matrizes_digitos, 0⟩ [⟨2⟩, ⟨4⟩, ⟨2⟩]).1.matrizes_digitos.getD 2 []
      = ['F', 'D', '9', '4', '7', '5', '1', 'A', '0', '2', '6', '3', '8', 'B', 'C', 'E'] :=
  (task_randomizer_historico (fun k => k * 7919 + 13) (fun _ => List.replicate 16 'x')
    ⟨init_matrizes_digitos, 0⟩ (by decide)).2 [⟨2⟩, ⟨4⟩, ⟨2⟩] (by decide) 2 _ (by decide)

/-! ## `task_input`: one poll cycle -/

/-- The navigation logic yields no event inside the debounce window. -/
theorem task_input_navegacao_janela (d : Nat) (s : InputState) (valor_x t : Nat)
    (h : tick_sub t s.last_move_time < d) :
    task_input_navegacao d s valor_x t = (none, s.current_line) := by
  have h2 : ¬ tick_sub t s.last_move_time ≥ d := by omega
  simp only [task_input_navegacao, h2, if_false, ite_self]

/-- Outside the debounce window an excursion yields the Navigate event to the
neighbouring row. -/
theorem task_input_navegacao_aceita (d : Nat) (s : InputState) (valor_x t : Nat)
    (h : tick_sub t s.last_move_time ≥ d) (he : excursao valor_x s.current_line) :
    ∃ l, task_input_navegacao d s valor_x t = (some ⟨.EVENTO_NAVEGACAO, l⟩, l) ∧
      ((valor_x < 1500 ∧ l = s.current_line + 1) ∨ (valor_x > 2500 ∧ l = s.current_line - 1)) := by
  unfold excursao at he
  rcases he with ⟨h1, h2⟩ | ⟨h1, h2⟩
  · refine ⟨(s.current_line + 1) % 256, ?_, Or.inl ⟨h1, by omega⟩⟩
    simp [task_input_navegacao, h, h1, h2]
  · refine ⟨s.current_line - 1, ?_, Or.inr ⟨h1, rfl⟩⟩
    have h3 : ¬ valor_x < 1500 := by omega
    simp [task_input_navegacao, h, h1, h2, h3]

/-- The result of the navigation logic is either no event, or one Navigate
event that carries the new `current_line`. -/
theorem task_input_navegacao_forma (d : Nat) (s : InputState) (valor_x t : Nat) :
    task_input_navegacao d s valor_x t = (none, s.current_line) ∨
    ∃ l, task_input_navegacao d s valor_x t = (some ⟨.EVENTO_NAVEGACAO, l⟩, l) ∧
      tick_sub t s.last_move_time ≥ d ∧
      ((valor_x < 1500 ∧ s.current_line < 3 ∧ l = s.current_line + 1) ∨
       (valor_x > 2500 ∧ s.current_line > 0 ∧ l = s.current_line - 1)) := by
  unfold task_input_navegacao
  split_ifs with h1 h2 h3 h4
  · right
    refine ⟨(s.current_line + 1) % 256, rfl, h2, Or.inl ⟨h3.1, h3.2, ?_⟩⟩
    have := h3.2
    simp only [NUM_LINES] at this
    omega
  · right
    exact ⟨s.current_line - 1, rfl, h2, Or.inr ⟨h4.1, h4.2, rfl⟩⟩
  · left; rfl
  · left; rfl
  · left; rfl

/-- The events of one cycle, from the result of the navigation logic. -/
theorem task_input_ciclo_sem_navegacao (pdMS_TO_TICKS : Nat → Nat) (s : InputState) (valor_x t : Nat)
    (b : Bool) (h : task_input_navegacao (pdMS_TO_TICKS 200) s valor_x t = (none, s.current_line)) :
    task_input_ciclo pdMS_TO_TICKS s valor_x t b =
      if b = true ∧ tick_sub t s.last_button_time > pdMS_TO_TICKS DEBOUNCE_TIME_MS then
        { estado := { s with last_button_time := t },
          enviados := [⟨.EVENTO_SELECAO, s.current_line⟩], xSemaphoreButton := false }
      else { estado := s, enviados := [], xSemaphoreButton := false } := by
  simp only [task_input_ciclo, h]
  cases b <;> simp

theorem task_input_ciclo_com_navegacao (pdMS_TO_TICKS : Nat → Nat) (s : InputState) (valor_x t : Nat)
    (b : Bool) (l : Nat)
    (h : task_input_navegacao (pdMS_TO_TICKS 200) s valor_x t = (some ⟨.EVENTO_NAVEGACAO, l⟩, l)) :
    task_input_ciclo pdMS_TO_TICKS s valor_x t b =
      if b = true ∧ tick_sub t s.last_button_time > pdMS_TO_TICKS DEBOUNCE_TIME_MS then
        { estado := { last_button_time := t, last_move_time := t, current_line := l },
          enviados := [⟨.EVENTO_NAVEGACAO, l⟩, ⟨.EVENTO_SELECAO, l⟩],
          xSemaphoreButton := false }
      else
        { estado := { s with last_move_time := t, current_line := l },
          enviados := [⟨.EVENTO_NAVEGACAO, l⟩], xSemaphoreButton := false } := by
  simp only [task_input_ciclo, h]
  cases b <;> simp

/-- C5: when `current_line` is in [0, 3], one poll cycle of `task_input`
leaves it in [0, 3] and every event sent (so every Navigate event) carries a
row in [0, 3]; at row 3 with the axis below 1500, and at row 0 with the axis
above 2500, the cycle sends no Navigate event and leaves the row unchanged. -/
theorem task_input_linha_limitada (pdMS_TO_TICKS : Nat → Nat) (s : InputState)
    (valor_x current_time : Nat) (botao : Bool) (h : s.current_line ≤ 3) :
    (task_input_ciclo pdMS_TO_TICKS s valor_x current_time botao).estado.current_line ≤ 3 ∧
    (∀ e ∈ (task_input_ciclo pdMS_TO_TICKS s valor_x current_time botao).enviados, e.linha ≤ 3) ∧
    ((s.current_line = 3 ∧ valor_x < 1500) ∨ (s.current_line = 0 ∧ valor_x > 2500) →
      num_navegacao (task_input_ciclo pdMS_TO_TICKS s valor_x current_time botao).enviados = 0 ∧
      (task_input_ciclo pdMS_TO_TICKS s valor_x current_time botao).estado.current_line = s.current_line) := by
  rcases task_input_navegacao_forma (pdMS_TO_TICKS 200) s valor_x current_time with hn | ⟨l, hn, _, hl⟩
  · rw [task_input_ciclo_sem_navegacao pdMS_TO_TICKS s valor_x current_time botao hn]
    split_ifs
    · exact ⟨h, by simpa using h, fun _ => ⟨rfl, rfl⟩⟩
    · exact ⟨h, by simp, fun _ => ⟨rfl, rfl⟩⟩
  · have hl3 : l ≤ 3 := by omega
    rw [task_input_ciclo_com_navegacao pdMS_TO_TICKS s valor_x current_time botao l hn]
    split_ifs
    · refine ⟨hl3, by simpa using hl3, ?_⟩
      intro hb; omega
    · refine ⟨hl3, by simpa using hl3, ?_⟩
      intro hb; omega

theorem task_input_linha_limitada_witness :
    (task_input_ciclo (fun ms => ms) ⟨0, 0, 3⟩ 1000 5000 true).estado.current_line ≤ 3 ∧
    (∀ e ∈ (task_input_ciclo (fun ms => ms) ⟨0, 0, 3⟩ 1000 5000 true).enviados, e.linha ≤ 3) ∧
    num_navegacao (task_input_ciclo (fun ms => ms) ⟨0, 0, 3⟩ 1000 5000 true).enviados = 0 ∧
    (task_input_ciclo (fun ms => ms) ⟨0, 0, 3⟩ 1000 5000 true).estado.current_line = 3 :=
  have h := task_input_linha_limitada (fun ms => ms) ⟨0, 0, 3⟩ 1000 5000 true (by decide)
  ⟨h.1, h.2.1, h.2.2 (Or.inl ⟨rfl, by decide⟩)⟩

/-- C9 as stated fails: at start-up values of the locals, with the axis at
1000, the tick count at 1000 (1 kHz tick) and the button signal pending, one
cycle sends a Navigate event and a Select event. -/
theorem task_input_dois_eventos :
    (task_input_ciclo (fun ms => ms) task_input_inicio 1000 1000 true).enviados =
      [⟨.EVENTO_NAVEGACAO, 1⟩, ⟨.EVENTO_SELECAO, 1⟩] := by
  decide

/-- C9, amended: one poll cycle of `task_input` sends at most one Navigate
event and at most one Select event, hence at most two events, the Navigate
event first; a Select event is sent only when the button signal was pending,
and it carries the row reached after the navigation logic. -/
theorem task_input_eventos_por_ciclo (pdMS_TO_TICKS : Nat → Nat) (s : InputState)
    (valor_x current_time : Nat) (botao : Bool) :
    num_navegacao (task_input_ciclo pdMS_TO_TICKS s valor_x current_time botao).enviados ≤ 1 ∧
    num_selecao (task_input_ciclo pdMS_TO_TICKS s valor_x current_time botao).enviados ≤ 1 ∧
    (task_input_ciclo pdMS_TO_TICKS s valor_x current_time botao).enviados.length ≤ 2 ∧
    ((task_input_ciclo pdMS_TO_TICKS s valor_x current_time botao).enviados =
      ((task_input_ciclo pdMS_TO_TICKS s valor_x current_time botao).enviados.filter
          fun e => e.tipo = .EVENTO_NAVEGACAO) ++
        ((task_input_ciclo pdMS_TO_TICKS s valor_x current_time botao).enviados.filter
          fun e => e.tipo = .EVENTO_SELECAO)) ∧
    (num_selecao (task_input_ciclo pdMS_TO_TICKS s valor_x current_time botao).enviados = 1 ↔
      botao = true ∧ tick_sub current_time s.last_button_time > pdMS_TO_TICKS DEBOUNCE_TIME_MS) ∧
    (∀ e ∈ (task_input_ciclo pdMS_TO_TICKS s valor_x current_time botao).enviados,
      e.tipo = .EVENTO_SELECAO →
      e.linha = (task_input_ciclo pdMS_TO_TICKS s valor_x current_time botao).estado.current_line) := by
  rcases task_input_navegacao_forma (pdMS_TO_TICKS 200) s valor_x current_time with hn | ⟨l, hn, _, _⟩
  · rw [task_input_ciclo_sem_navegacao pdMS_TO_TICKS s valor_x current_time botao hn]
    split_ifs with hb
    · simp [num_navegacao, num_selecao, hb]
    · simp [num_navegacao, num_selecao, hb]
  · rw [task_input_ciclo_com_navegacao pdMS_TO_TICKS s valor_x current_time botao l hn]
    split_ifs with hb
    · simp [num_navegacao, num_selecao, hb]
    · simp [num_navegacao, num_selecao, hb]

/-! ## `task_input`: debounce -/

theorem num_navegacao_append (a b : List InputEvent_t) :
    num_navegacao (a ++ b) = num_navegacao a + num_navegacao b := by
  simp [num_navegacao]

theorem num_selecao_append (a b : List InputEvent_t) :
    num_selecao (a ++ b) = num_selecao a + num_selecao b := by
  simp [num_selecao]

/-- A cycle inside the navigation window: no Navigate event, and neither the
row nor `last_move_time` changes. -/
theorem task_input_ciclo_janela (pdMS_TO_TICKS : Nat → Nat) (s : InputState) (valor_x t : Nat) (b : Bool)
    (h : tick_sub t s.last_move_time < pdMS_TO_TICKS 200) :
    num_navegacao (task_input_ciclo pdMS_TO_TICKS s valor_x t b).enviados = 0 ∧
    (task_input_ciclo pdMS_TO_TICKS s valor_x t b).estado.last_move_time = s.last_move_time ∧
    (task_input_ciclo pdMS_TO_TICKS s valor_x t b).estado.current_line = s.current_line := by
  rw [task_input_ciclo_sem_navegacao pdMS_TO_TICKS s valor_x t b (task_input_navegacao_janela _ s valor_x t h)]
  split_ifs <;> simp [num_navegacao]

/-- A cycle outside the navigation window that samples an excursion: exactly
one Navigate event, and `last_move_time` becomes the tick count of the cycle. -/
theorem task_input_ciclo_aceita (pdMS_TO_TICKS : Nat → Nat) (s : InputState) (valor_x t : Nat) (b : Bool)
    (h : tick_sub t s.last_move_time ≥ pdMS_TO_TICKS 200) (he : excursao valor_x s.current_line) :
    num_navegacao (task_input_ciclo pdMS_TO_TICKS s valor_x t b).enviados = 1 ∧
    (task_input_ciclo pdMS_TO_TICKS s valor_x t b).estado.last_move_time = t := by
  obtain ⟨l, hn, _⟩ := task_input_navegacao_aceita (pdMS_TO_TICKS 200) s valor_x t h he
  rw [task_input_ciclo_com_navegacao pdMS_TO_TICKS s valor_x t b l hn]
  split_ifs <;> simp [num_navegacao]

/-- A cycle that sends a Navigate event records its tick count. -/
theorem task_input_ciclo_registra (pdMS_TO_TICKS : Nat → Nat) (s : InputState) (valor_x t : Nat) (b : Bool)
    (h : num_navegacao (task_input_ciclo pdMS_TO_TICKS s valor_x t b).enviados = 1) :
    (task_input_ciclo pdMS_TO_TICKS s valor_x t b).estado.last_move_time = t := by
  rcases task_input_navegacao_forma (pdMS_TO_TICKS 200) s valor_x t with hn | ⟨l, hn, _, _⟩
  · rw [task_input_ciclo_sem_navegacao pdMS_TO_TICKS s valor_x t b hn] at h
    split_ifs at h <;> simp [num_navegacao] at h
  · rw [task_input_ciclo_com_navegacao pdMS_TO_TICKS s valor_x t b l hn]
    split_ifs <;> rfl

theorem task_input_run_janela (pdMS_TO_TICKS : Nat → Nat) (amostras : List Amostra) (s : InputState)
    (h : ∀ a ∈ amostras, tick_sub a.current_time s.last_move_time < pdMS_TO_TICKS 200) :
    num_navegacao (task_input_run pdMS_TO_TICKS s amostras).2 = 0 ∧
    (task_input_run pdMS_TO_TICKS s amostras).1.last_move_time = s.last_move_time ∧
    (task_input_run pdMS_TO_TICKS s amostras).1.current_line = s.current_line := by
  induction amostras generalizing s with
  | nil => exact ⟨rfl, rfl, rfl⟩
  | cons a rest ih =>
    have h1 := task_input_ciclo_janela pdMS_TO_TICKS s a.valor_x a.current_time a.botao
      (h a (List.mem_cons_self _ _))
    have h2 := ih (task_input_ciclo pdMS_TO_TICKS s a.valor_x a.current_time a.botao).estado
      (fun x hx => by rw [h1.2.1]; exact h x (List.mem_cons_of_mem _ hx))
    simp only [task_input_run, num_navegacao_append]
    exact ⟨by rw [h1.1, h2.1], h2.2.1.trans h1.2.1, h2.2.2.trans h1.2.2⟩

/-- C6 as stated fails: from the start-up values of the locals, two cycles at
ticks 30 and 60 (1 kHz tick), both sampling the axis at 1000 with the row at
0, are less than 200 ms apart and send no Navigate event at all. -/
theorem task_input_duas_excursoes_sem_evento :
    tick_sub 60 30 < 200 ∧
    excursao 1000 task_input_inicio.current_line ∧
    excursao 1000
      (task_input_ciclo (fun ms => ms) task_input_inicio 1000 30 false).estado.current_line ∧
    num_navegacao (task_input_ciclo (fun ms => ms) task_input_inicio 1000 30 false).enviados +
      num_navegacao (task_input_ciclo (fun ms => ms)
        (task_input_ciclo (fun ms => ms) task_input_inicio 1000 30 false).estado
        1000 60 false).enviados = 0 := by
  decide

/-- C6, amended: two poll cycles less than `pdMS_TO_TICKS(200)` ticks apart
that each sample a navigation-triggering excursion send at most one Navigate
event between them, and exactly one if and only if one of the two tick counts
is at least `pdMS_TO_TICKS(200)` ticks after `last_move_time`; and after a
cycle that sent a Navigate event at tick `t0`, cycles whose tick counts are
less than `pdMS_TO_TICKS(200)` after `t0` send no Navigate event and leave
the row unchanged, whatever the axis reads in each of them. -/
theorem task_input_debounce_navegacao (pdMS_TO_TICKS : Nat → Nat) (s : InputState) :
    (∀ (x1 t1 : Nat) (b1 : Bool) (x2 t2 : Nat) (b2 : Bool),
      tick_sub t2 t1 < pdMS_TO_TICKS 200 →
      excursao x1 s.current_line →
      excursao x2 (task_input_ciclo pdMS_TO_TICKS s x1 t1 b1).estado.current_line →
      num_navegacao (task_input_ciclo pdMS_TO_TICKS s x1 t1 b1).enviados +
        num_navegacao (task_input_ciclo pdMS_TO_TICKS (task_input_ciclo pdMS_TO_TICKS s x1 t1 b1).estado
          x2 t2 b2).enviados ≤ 1 ∧
      (num_navegacao (task_input_ciclo pdMS_TO_TICKS s x1 t1 b1).enviados +
        num_navegacao (task_input_ciclo pdMS_TO_TICKS (task_input_ciclo pdMS_TO_TICKS s x1 t1 b1).estado
          x2 t2 b2).enviados = 1 ↔
        tick_sub t1 s.last_move_time ≥ pdMS_TO_TICKS 200 ∨ tick_sub t2 s.last_move_time ≥ pdMS_TO_TICKS 200)) ∧
    (∀ (x0 t0 : Nat) (b0 : Bool) (amostras : List Amostra),
      num_navegacao (task_input_ciclo pdMS_TO_TICKS s x0 t0 b0).enviados = 1 →
      (∀ a ∈ amostras, tick_sub a.current_time t0 < pdMS_TO_TICKS 200) →
      num_navegacao (task_input_run pdMS_TO_TICKS (task_input_ciclo pdMS_TO_TICKS s x0 t0 b0).estado amostras).2 = 0 ∧
      (task_input_run pdMS_TO_TICKS (task_input_ciclo pdMS_TO_TICKS s x0 t0 b0).estado amostras).1.current_line =
        (task_input_ciclo pdMS_TO_TICKS s x0 t0 b0).estado.current_line) := by
  constructor
  · intro x1 t1 b1 x2 t2 b2 hw he1 he2
    by_cases h1 : tick_sub t1 s.last_move_time ≥ pdMS_TO_TICKS 200
    · have a1 := task_input_ciclo_aceita pdMS_TO_TICKS s x1 t1 b1 h1 he1
      have a2 := task_input_ciclo_janela pdMS_TO_TICKS (task_input_ciclo pdMS_TO_TICKS s x1 t1 b1).estado x2 t2 b2
        (by rw [a1.2]; exact hw)
      rw [a1.1, a2.1]
      exact ⟨Nat.le_refl _, fun _ => Or.inl h1, fun _ => rfl⟩
    · have a1 := task_input_ciclo_janela pdMS_TO_TICKS s x1 t1 b1 (by omega)
      by_cases h2 : tick_sub t2 s.last_move_time ≥ pdMS_TO_TICKS 200
      · have a2 := task_input_ciclo_aceita pdMS_TO_TICKS (task_input_ciclo pdMS_TO_TICKS s x1 t1 b1).estado x2 t2 b2
          (by rw [a1.2.1]; exact h2) he2
        rw [a1.1, a2.1]
        exact ⟨Nat.le_refl _, fun _ => Or.inr h2, fun _ => rfl⟩
      · have a2 := task_input_ciclo_janela pdMS_TO_TICKS (task_input_ciclo pdMS_TO_TICKS s x1 t1 b1).estado x2 t2 b2
          (by rw [a1.2.1]; omega)
        rw [a1.1, a2.1]
        refine ⟨Nat.zero_le _, fun h => absurd h (by decide), fun h => ?_⟩
        rcases h with h | h
        · exact absurd h h1
        · exact absurd h h2
  · intro x0 t0 b0 amostras hn hw
    have hr := task_input_ciclo_registra pdMS_TO_TICKS s x0 t0 b0 hn
    have h := task_input_run_janela pdMS_TO_TICKS amostras (task_input_ciclo pdMS_TO_TICKS s x0 t0 b0).estado
      (by rw [hr]; exact hw)
    exact ⟨h.1, h.2.2⟩

theorem task_input_debounce_navegacao_witness :
    num_navegacao (task_input_ciclo (fun ms => ms) task_input_inicio 1000 1000 false).enviados +
      num_navegacao (task_input_ciclo (fun ms => ms)
        (task_input_ciclo (fun ms => ms) task_input_inicio 1000 1000 false).estado
        1000 1100 false).enviados = 1 ∧
    num_navegacao (task_input_run (fun ms => ms)
      (task_input_ciclo (fun ms => ms) task_input_inicio 1000 1000 false).estado
      [⟨2048, 1030, false⟩, ⟨1000, 1060, false⟩, ⟨3000, 1199, true⟩]).2 = 0 :=
  have h := task_input_debounce_navegacao (fun ms => ms) task_input_inicio
  ⟨((h.1 1000 1000 false 1000 1100 false (by decide) (by decide) (by decide)).2).mpr
      (Or.inl (by decide)),
   (h.2 1000 1000 false [⟨2048, 1030, false⟩, ⟨1000, 1060, false⟩, ⟨3000, 1199, true⟩]
      (by decide) (by decide)).1⟩

/-- The button part of one cycle: a Select event is sent exactly when the
signal is pending and the tick count is more than
`pdMS_TO_TICKS(DEBOUNCE_TIME_MS)` after `last_button_time`, which then takes
the tick count; the signal is not pending afterwards. -/
theorem task_input_ciclo_botao (pdMS_TO_TICKS : Nat → Nat) (s : InputState) (valor_x t : Nat) (b : Bool) :
    num_selecao (task_input_ciclo pdMS_TO_TICKS s valor_x t b).enviados =
      (if b = true ∧ tick_sub t s.last_button_time > pdMS_TO_TICKS DEBOUNCE_TIME_MS then 1 else 0) ∧
    (task_input_ciclo pdMS_TO_TICKS s valor_x t b).estado.last_button_time =
      (if b = true ∧ tick_sub t s.last_button_time > pdMS_TO_TICKS DEBOUNCE_TIME_MS then t
       else s.last_button_time) ∧
    (task_input_ciclo pdMS_TO_TICKS s valor_x t b).xSemaphoreButton = false := by
  rcases task_input_navegacao_forma (pdMS_TO_TICKS 200) s valor_x t with hn | ⟨l, hn, _, _⟩
  · rw [task_input_ciclo_sem_navegacao pdMS_TO_TICKS s valor_x t b hn]
    split_ifs <;> simp [num_selecao]
  · rw [task_input_ciclo_com_navegacao pdMS_TO_TICKS s valor_x t b l hn]
    split_ifs <;> simp [num_selecao]

theorem task_input_run_janela_botao (pdMS_TO_TICKS : Nat → Nat) (amostras : List Amostra) (s : InputState)
    (h : ∀ a ∈ amostras, tick_sub a.current_time s.last_button_time < pdMS_TO_TICKS DEBOUNCE_TIME_MS) :
    num_selecao (task_input_run pdMS_TO_TICKS s amostras).2 = 0 ∧
    (task_input_run pdMS_TO_TICKS s amostras).1.last_button_time = s.last_button_time := by
  induction amostras generalizing s with
  | nil => exact ⟨rfl, rfl⟩
  | cons a rest ih =>
    have hw := h a (List.mem_cons_self _ _)
    have hno : ¬ (a.botao = true ∧
        tick_sub a.current_time s.last_button_time > pdMS_TO_TICKS DEBOUNCE_TIME_MS) := by
      intro hc; omega
    have h1 := task_input_ciclo_botao pdMS_TO_TICKS s a.valor_x a.current_time a.botao
    simp only [hno, if_false] at h1
    have h2 := ih (task_input_ciclo pdMS_TO_TICKS s a.valor_x a.current_time a.botao).estado
      (fun x hx => by rw [h1.2.1]; exact h x (List.mem_cons_of_mem _ hx))
    simp only [task_input_run, num_selecao_append]
    exact ⟨by rw [h1.1, h2.1], h2.2.trans h1.2.1⟩

/-- C7 as stated fails: from the start-up values of the locals, two cycles at
ticks 30 and 60 (1 kHz tick) that both find the button signal pending are
less than 200 ms apart and send no Select event at all. -/
theorem task_input_dois_toques_sem_evento :
    tick_sub 60 30 < 200 ∧
    num_selecao (task_input_ciclo (fun ms => ms) task_input_inicio 2048 30 true).enviados +
      num_selecao (task_input_ciclo (fun ms => ms)
        (task_input_ciclo (fun ms => ms) task_input_inicio 2048 30 true).estado
        2048 60 true).enviados = 0 := by
  decide

/-- C7, amended: two poll cycles less than `pdMS_TO_TICKS(DEBOUNCE_TIME_MS)`
ticks apart that each find the button signal pending send at most one Select
event between them, and exactly one if and only if one of the two tick counts
is more than `pdMS_TO_TICKS(DEBOUNCE_TIME_MS)` ticks after
`last_button_time`; both consume the signal.  After a cycle that sent a
Select event at tick `t0`, cycles whose tick counts are less than
`pdMS_TO_TICKS(DEBOUNCE_TIME_MS)` after `t0` send no Select event, and such a
cycle that finds the signal pending consumes it. -/
theorem task_input_debounce_selecao (pdMS_TO_TICKS : Nat → Nat) (s : InputState) :
    (∀ (x1 t1 x2 t2 : Nat),
      tick_sub t2 t1 < pdMS_TO_TICKS DEBOUNCE_TIME_MS →
      num_selecao (task_input_ciclo pdMS_TO_TICKS s x1 t1 true).enviados +
        num_selecao (task_input_ciclo pdMS_TO_TICKS (task_input_ciclo pdMS_TO_TICKS s x1 t1 true).estado
          x2 t2 true).enviados ≤ 1 ∧
      (num_selecao (task_input_ciclo pdMS_TO_TICKS s x1 t1 true).enviados +
        num_selecao (task_input_ciclo pdMS_TO_TICKS (task_input_ciclo pdMS_TO_TICKS s x1 t1 true).estado
          x2 t2 true).enviados = 1 ↔
        tick_sub t1 s.last_button_time > pdMS_TO_TICKS DEBOUNCE_TIME_MS ∨
          tick_sub t2 s.last_button_time > pdMS_TO_TICKS DEBOUNCE_TIME_MS) ∧
      (task_input_ciclo pdMS_TO_TICKS s x1 t1 true).xSemaphoreButton = false ∧
      (task_input_ciclo pdMS_TO_TICKS (task_input_ciclo pdMS_TO_TICKS s x1 t1 true).estado
          x2 t2 true).xSemaphoreButton = false) ∧
    (∀ (x0 t0 : Nat) (b0 : Bool) (amostras : List Amostra),
      num_selecao (task_input_ciclo pdMS_TO_TICKS s x0 t0 b0).enviados = 1 →
      (∀ a ∈ amostras, tick_sub a.current_time t0 < pdMS_TO_TICKS DEBOUNCE_TIME_MS) →
      num_selecao (task_input_run pdMS_TO_TICKS (task_input_ciclo pdMS_TO_TICKS s x0 t0 b0).estado amostras).2 = 0 ∧
      ∀ a ∈ amostras,
        (task_input_ciclo pdMS_TO_TICKS (task_input_ciclo pdMS_TO_TICKS s x0 t0 b0).estado
          a.valor_x a.current_time true).xSemaphoreButton = false ∧
        num_selecao (task_input_ciclo pdMS_TO_TICKS (task_input_ciclo pdMS_TO_TICKS s x0 t0 b0).estado
          a.valor_x a.current_time true).enviados = 0) := by
  constructor
  · intro x1 t1 x2 t2 hw
    have a1 := task_input_ciclo_botao pdMS_TO_TICKS s x1 t1 true
    have a2 := task_input_ciclo_botao pdMS_TO_TICKS (task_input_ciclo pdMS_TO_TICKS s x1 t1 true).estado x2 t2 true
    refine ⟨?_, ?_, a1.2.2, a2.2.2⟩
    · rw [a1.1, a2.1, a1.2.1]
      by_cases h1 : tick_sub t1 s.last_button_time > pdMS_TO_TICKS DEBOUNCE_TIME_MS
      · have h2 : ¬ tick_sub t2 t1 > pdMS_TO_TICKS DEBOUNCE_TIME_MS := by omega
        simp [h1, h2]
      · by_cases h2 : tick_sub t2 s.last_button_time > pdMS_TO_TICKS DEBOUNCE_TIME_MS <;> simp [h1, h2]
    · rw [a1.1, a2.1, a1.2.1]
      by_cases h1 : tick_sub t1 s.last_button_time > pdMS_TO_TICKS DEBOUNCE_TIME_MS
      · have h2 : ¬ tick_sub t2 t1 > pdMS_TO_TICKS DEBOUNCE_TIME_MS := by omega
        simp [h1, h2]
      · by_cases h2 : tick_sub t2 s.last_button_time > pdMS_TO_TICKS DEBOUNCE_TIME_MS <;> simp [h1, h2]
  · intro x0 t0 b0 amostras hn hw
    have a0 := task_input_ciclo_botao pdMS_TO_TICKS s x0 t0 b0
    have hr : (task_input_ciclo pdMS_TO_TICKS s x0 t0 b0).estado.last_button_time = t0 := by
      rw [a0.2.1]
      rw [a0.1] at hn
      split_ifs at hn ⊢
      rfl
    refine ⟨(task_input_run_janela_botao pdMS_TO_TICKS amostras _ (by rw [hr]; exact hw)).1, ?_⟩
    intro a ha
    have a1 := task_input_ciclo_botao pdMS_TO_TICKS (task_input_ciclo pdMS_TO_TICKS s x0 t0 b0).estado
      a.valor_x a.current_time true
    have hwa := hw a ha
    have hno : ¬ tick_sub a.current_time t0 > pdMS_TO_TICKS DEBOUNCE_TIME_MS := by omega
    rw [hr] at a1
    simp only [hno, and_false, if_false] at a1
    exact ⟨a1.2.2, a1.1⟩

theorem task_input_debounce_selecao_witness :
    num_selecao (task_input_ciclo (fun ms => ms) task_input_inicio 2048 1000 true).enviados +
      num_selecao (task_input_ciclo (fun ms => ms)
        (task_input_ciclo (fun ms => ms) task_input_inicio 2048 1000 true).estado
        2048 1100 true).enviados = 1 ∧
    num_selecao (task_input_run (fun ms => ms)
      (task_input_ciclo (fun ms => ms) task_input_inicio 2048 1000 true).estado
      [⟨2048, 1030, true⟩, ⟨2048, 1060, false⟩, ⟨2048, 1199, true⟩]).2 = 0 :=
  have h := task_input_debounce_selecao (fun ms => ms) task_input_inicio
  ⟨((h.1 2048 1000 2048 1100 (by decide)).2.1).mpr (Or.inl (by decide)),
   (h.2 2048 1000 true [⟨2048, 1030, true⟩, ⟨2048, 1060, false⟩, ⟨2048, 1199, true⟩]
      (by decide) (by decide)).1⟩

/-! ## `task_auth`: end of an attempt, and the grid response -/

/-- The handling of the sixth Select of an attempt, up to the receive. -/
theorem task_auth_evento_sexta (s : AuthState) (hist : Historico) (evento : InputEvent_t)
    (hc : s.char_count = 5) (he : evento.tipo = .EVENTO_SELECAO) :
    task_auth_evento s hist evento =
      { estado := { char_count := 0, global_linha_selecionada := 0,
                    senha_display := List.replicate 7 NUL,
                    linhas_selecionadas := List.replicate 6 0 },
        envios :=
          [.display (.DISP_ATUALIZAR_SENHA (strncpy ((s.senha_display.set 5 '*').set 6 NUL) 7)),
           .resultado ⟨validar hist (s.linhas_selecionadas.set 5 s.global_linha_selecionada)⟩,
           .display (.DISP_MENSAGEM
             (if validar hist (s.linhas_selecionadas.set 5 s.global_linha_selecionada)
              then "SENHA CORRETA" else "SENHA INCORRETA")),
           .pedido ⟨0⟩],
        espera := some .reinicio } := by
  simp [task_auth_evento, he, hc]
  exact ⟨rfl, rfl⟩

/-- The handling of one of the first five Selects of an attempt, up to the
receive. -/
theorem task_auth_evento_selecao (s : AuthState) (hist : Historico) (evento : InputEvent_t)
    (hc : s.char_count + 1 < PIN_LENGTH) (he : evento.tipo = .EVENTO_SELECAO) :
    task_auth_evento s hist evento =
      { estado := { s with
          char_count := s.char_count + 1,
          senha_display := (s.senha_display.set s.char_count '*').set (s.char_count + 1) NUL,
          linhas_selecionadas :=
            s.linhas_selecionadas.set s.char_count s.global_linha_selecionada },
        envios :=
          [.display (.DISP_ATUALIZAR_SENHA
             (strncpy ((s.senha_display.set s.char_count '*').set (s.char_count + 1) NUL) 7)),
           .pedido ⟨s.char_count + 1⟩],
        espera := some .etapa } := by
  have h1 : s.char_count < 6 := by simp only [PIN_LENGTH] at hc; omega
  have h2 : (s.char_count + 1) % 256 = s.char_count + 1 := by
    simp only [PIN_LENGTH] at hc; omega
  have h3 : s.char_count + 1 < 6 := hc
  simp [task_auth_evento, he, h1, h2, h3]

/-- C8: with five rows committed, handling a Select sends exactly one
`AuthResult_t`, whose flag is the outcome of the validation (true exactly
when every PIN symbol is in the selected row of the grid recorded for its
position), then the message "SENHA CORRETA" or "SENHA INCORRETA" accordingly,
then one grid request, for step 0; the last command published is a password
update with the empty string; and the session is left reset: `char_count` 0,
highlighted row 0, selected rows and masked string cleared. -/
theorem task_auth_fim_da_tentativa (s : AuthState) (hist : Historico) (evento : InputEvent_t)
    (resp : Option RandomizerResponse_t)
    (hc : s.char_count = 5) (he : evento.tipo = .EVENTO_SELECAO) :
    (task_auth_tratar s hist evento resp).2 =
      [.display (.DISP_ATUALIZAR_SENHA (strncpy ((s.senha_display.set 5 '*').set 6 NUL) 7)),
       .resultado ⟨validar hist (s.linhas_selecionadas.set 5 s.global_linha_selecionada)⟩,
       .display (.DISP_MENSAGEM
         (if validar hist (s.linhas_selecionadas.set 5 s.global_linha_selecionada)
          then "SENHA CORRETA" else "SENHA INCORRETA")),
       .pedido ⟨0⟩] ++
      (match resp with
        | some response =>
          [.display (.DISP_ATUALIZAR_MATRIZ response.matriz),
           .display (.DISP_ATUALIZAR_SELECAO 0)]
        | none => []) ++
      [.display (.DISP_ATUALIZAR_SENHA (List.replicate 7 NUL))] ∧
    resultados (task_auth_tratar s hist evento resp).2 =
      [⟨validar hist (s.linhas_selecionadas.set 5 s.global_linha_selecionada)⟩] ∧
    (validar hist (s.linhas_selecionadas.set 5 s.global_linha_selecionada) = true ↔
      ∀ i, i < PIN_LENGTH → ∃ j, j < NUMBERS_PER_LINE ∧
        celula (hist.getD i [])
          ((s.linhas_selecionadas.set 5 s.global_linha_selecionada).getD i 0) j =
          senha_correta.getD i NUL) ∧
    pedidos (task_auth_tratar s hist evento resp).2 = [⟨0⟩] ∧
    cstr (List.replicate 7 NUL) = [] ∧
    (task_auth_tratar s hist evento resp).1 =
      { char_count := 0, global_linha_selecionada := 0,
        senha_display := List.replicate 7 NUL,
        linhas_selecionadas := List.replicate 6 0 } := by
  have hs : strncpy [] (PIN_LENGTH + 1) = List.replicate 7 NUL := by decide
  have hcs : cstr (List.replicate 7 NUL) = [] := by decide
  refine ⟨?_, ?_, validar_iff _ _, ?_, hcs, ?_⟩
  · rw [task_auth_tratar, task_auth_evento_sexta s hist evento hc he]
    cases resp <;> simp [task_auth_resposta, task_auth_mostrar_inicial, hs]
  · rw [task_auth_tratar, task_auth_evento_sexta s hist evento hc he]
    cases resp <;> simp [task_auth_resposta, task_auth_mostrar_inicial, resultados]
  · rw [task_auth_tratar, task_auth_evento_sexta s hist evento hc he]
    cases resp <;> simp [task_auth_resposta, task_auth_mostrar_inicial, pedidos]
  · rw [task_auth_tratar, task_auth_evento_sexta s hist evento hc he]
    cases resp <;> simp [task_auth_resposta, task_auth_mostrar_inicial]

theorem task_auth_fim_da_tentativa_witness :
    (task_auth_tratar ⟨5, ['*', '*', '*', '*', '*', NUL, NUL], [0, 0, 0, 1, 1, 0], 1⟩
        init_matrizes_digitos ⟨.EVENTO_SELECAO, 3⟩ (some ⟨0, chars⟩)).2 =
      [.display (.DISP_ATUALIZAR_SENHA ['*', '*', '*', '*', '*', '*', NUL]),
       .resultado ⟨true⟩,
       .display (.DISP_MENSAGEM "SENHA CORRETA"),
       .pedido ⟨0⟩,
       .display (.DISP_ATUALIZAR_MATRIZ chars),
       .display (.DISP_ATUALIZAR_SELECAO 0),
       .display (.DISP_ATUALIZAR_SENHA (List.replicate 7 NUL))] ∧
    (task_auth_tratar ⟨5, ['*', '*', '*', '*', '*', NUL, NUL], [0, 0, 0, 1, 1, 0], 1⟩
        init_matrizes_digitos ⟨.EVENTO_SELECAO, 3⟩ (some ⟨0, chars⟩)).1 =
      ⟨0, List.replicate 7 NUL, List.replicate 6 0, 0⟩ :=
  have h := task_auth_fim_da_tentativa
    ⟨5, ['*', '*', '*', '*', '*', NUL, NUL], [0, 0, 0, 1, 1, 0], 1⟩
    init_matrizes_digitos ⟨.EVENTO_SELECAO, 3⟩ (some ⟨0, chars⟩) rfl rfl
  ⟨h.1.trans (by decide), h.2.2.2.2.2⟩

/-- C10 as stated fails for step 1: with row 2 highlighted and no row
committed yet, a Select makes `task_auth` request the grid of step 1, and when
the response arrives it publishes that grid followed by a cursor command for
row 2, and the highlighted row is still 2. -/
theorem task_auth_cursor_mantido :
    task_auth_tratar ⟨0, List.replicate 7 NUL, List.replicate 6 0, 2⟩ init_matrizes_digitos
        ⟨.EVENTO_SELECAO, 2⟩ (some ⟨1, chars⟩) =
      (⟨1, ['*', NUL, NUL, NUL, NUL, NUL, NUL], [2, 0, 0, 0, 0, 0], 2⟩,
       [.display (.DISP_ATUALIZAR_SENHA ['*', NUL, NUL, NUL, NUL, NUL, NUL]),
        .pedido ⟨1⟩,
        .display (.DISP_ATUALIZAR_MATRIZ chars),
        .display (.DISP_ATUALIZAR_SELECAO 2)]) := by
  decide

/-- C10, amended: when the response to a grid request arrives within the
wait, `task_auth` publishes the grid of the response followed by a cursor
command.  For the request of step 0 (the one sent at start-up and the one
sent after a completed attempt) the cursor command carries row 0 and the
highlighted row becomes 0.  For the request of a step from 1 to 5 (sent after
a Select with `char_count + 1 < PIN_LENGTH`) the cursor command carries the
current highlighted row, which is left unchanged. -/
theorem task_auth_resposta_da_matriz (s : AuthState) (response : RandomizerResponse_t) :
    task_auth_resposta .inicial s (some response) =
      ({ s with global_linha_selecionada := 0 },
       [.display (.DISP_ATUALIZAR_MATRIZ response.matriz),
        .display (.DISP_ATUALIZAR_SELECAO 0)]) ∧
    task_auth_resposta .reinicio s (some response) =
      ({ s with global_linha_selecionada := 0 },
       [.display (.DISP_ATUALIZAR_MATRIZ response.matriz),
        .display (.DISP_ATUALIZAR_SELECAO 0),
        .display (.DISP_ATUALIZAR_SENHA (List.replicate 7 NUL))]) ∧
    task_auth_resposta .etapa s (some response) =
      (s, [.display (.DISP_ATUALIZAR_MATRIZ response.matriz),
           .display (.DISP_ATUALIZAR_SELECAO s.global_linha_selecionada)]) ∧
    (∀ (hist : Historico) (evento : InputEvent_t),
      evento.tipo = .EVENTO_SELECAO → s.char_count + 1 < PIN_LENGTH →
      (task_auth_evento s hist evento).espera = some .etapa ∧
      pedidos (task_auth_evento s hist evento).envios = [⟨s.char_count + 1⟩] ∧
      (task_auth_tratar s hist evento (some response)).1.global_linha_selecionada =
        s.global_linha_selecionada ∧
      (task_auth_tratar s hist evento (some response)).1.char_count = s.char_count + 1 ∧
      (task_auth_tratar s hist evento (some response)).2 =
        (task_auth_evento s hist evento).envios ++
          [.display (.DISP_ATUALIZAR_MATRIZ response.matriz),
           .display (.DISP_ATUALIZAR_SELECAO s.global_linha_selecionada)]) ∧
    (∀ (hist : Historico) (evento : InputEvent_t),
      evento.tipo = .EVENTO_SELECAO → s.char_count = 5 →
      (task_auth_evento s hist evento).espera = some .reinicio ∧
      pedidos (task_auth_evento s hist evento).envios = [⟨0⟩] ∧
      (task_auth_tratar s hist evento (some response)).1.global_linha_selecionada = 0 ∧
      (task_auth_tratar s hist evento (some response)).1.char_count = 0 ∧
      (task_auth_tratar s hist evento (some response)).2 =
        (task_auth_evento s hist evento).envios ++
          [.display (.DISP_ATUALIZAR_MATRIZ response.matriz),
           .display (.DISP_ATUALIZAR_SELECAO 0),
           .display (.DISP_ATUALIZAR_SENHA (List.replicate 7 NUL))]) := by
  have hs : strncpy [] (PIN_LENGTH + 1) = List.replicate 7 NUL := by decide
  refine ⟨rfl, ?_, rfl, ?_, ?_⟩
  · simp [task_auth_resposta, task_auth_mostrar_inicial, hs]
  · intro hist evento he hc
    rw [task_auth_tratar, task_auth_evento_selecao s hist evento hc he]
    simp [task_auth_resposta, pedidos]
  · intro hist evento he hc
    rw [task_auth_tratar, task_auth_evento_sexta s hist evento hc he]
    simp [task_auth_resposta, task_auth_mostrar_inicial, pedidos, hs]

theorem task_auth_resposta_da_matriz_witness :
    (task_auth_tratar ⟨3, ['*', '*', '*', NUL, NUL, NUL, NUL], [0, 1, 2, 0, 0, 0], 3⟩
        init_matrizes_digitos ⟨.EVENTO_SELECAO, 3⟩ (some ⟨4, chars⟩)).2 =
      [.display (.DISP_ATUALIZAR_SENHA ['*', '*', '*', '*', NUL, NUL, NUL]),
       .pedido ⟨4⟩,
       .display (.DISP_ATUALIZAR_MATRIZ chars),
       .display (.DISP_ATUALIZAR_SELECAO 3)] ∧
    (task_auth_tratar ⟨5, ['*', '*', '*', '*', '*', NUL, NUL], [0, 1, 2, 0, 0, 0], 3⟩
        init_matrizes_digitos ⟨.EVENTO_SELECAO, 3⟩
        (some ⟨0, chars⟩)).1.global_linha_selecionada = 0 :=
  have h := task_auth_resposta_da_matriz
    ⟨3, ['*', '*', '*', NUL, NUL, NUL, NUL], [0, 1, 2, 0, 0, 0], 3⟩ ⟨4, chars⟩
  have h5 := task_auth_resposta_da_matriz
    ⟨5, ['*', '*', '*', '*', '*', NUL, NUL], [0, 1, 2, 0, 0, 0], 3⟩ ⟨0, chars⟩
  ⟨(h.2.2.2.1 init_matrizes_digitos ⟨.EVENTO_SELECAO, 3⟩ rfl (by decide)).2.2.2.2.trans
      (by decide),
   (h5.2.2.2.2 init_matrizes_digitos ⟨.EVENTO_SELECAO, 3⟩ rfl rfl).2.2.1⟩

/-! ## The controller composed with the shuffler -/

theorem pedidos_append (a b : List Envio) :
    pedidos (a ++ b) = pedidos a ++ pedidos b := by
  induction a with
  | nil => rfl
  | cons x a ih => cases x <;> simp [pedidos, ih]

theorem matriz_exibida_append (a b : List Envio) :
    matriz_exibida (a ++ b) =
      match matriz_exibida b with
      | some g => some g
      | none => matriz_exibida a := by
  induction a with
  | nil =>
    simp only [List.nil_append, matriz_exibida]
    cases matriz_exibida b <;> rfl
  | cons x a ih =>
    simp only [List.cons_append, matriz_exibida, List.append_eq, ih]
    cases matriz_exibida b <;> rfl

/-- With an empty response queue and exactly one request sent, serving the
request writes the new grid to the history and hands the response to
`task_auth`. -/
theorem sistema_atender_um (rnd : Nat → Nat) (lixo : Nat → Grid) (sis : Sistema)
    (st : AuthState) (envios : List Envio) (e : Espera) (req : RandomizerRequest_t)
    (hq : sis.xQueueRandomizerResponse = []) (hp : pedidos envios = [req]) :
    ∃ (g : Grid) (n : Nat),
      sistema_atender rnd lixo sis st envios e =
        { auth := (task_auth_resposta e st (some ⟨req.etapa, g⟩)).1,
          rand := { matrizes_digitos := sis.rand.matrizes_digitos.set req.etapa g, rng := n },
          xQueueRandomizerResponse := [],
          enviados := sis.enviados ++ envios ++
            (task_auth_resposta e st (some ⟨req.etapa, g⟩)).2 } := by
  refine ⟨(task_randomizer_gerar rnd sis.rand.rng (lixo sis.rand.rng) req).1.matriz,
    (task_randomizer_gerar rnd sis.rand.rng (lixo sis.rand.rng) req).2, ?_⟩
  simp only [sistema_atender, hp, hq, task_randomizer_run, List.append_nil, List.nil_append,
    task_randomizer_iter_acoes, respostas, List.head?_cons, List.tail_cons]
  rfl

/-- The observer's record across a Navigate event. -/
theorem observar_evento_navegacao (rnd : Nat → Nat) (lixo : Nat → Grid) (o : Observacao)
    (l : Nat) :
    observar_evento rnd lixo o ⟨.EVENTO_NAVEGACAO, l⟩ =
      { sis := { o.sis with
          auth := { o.sis.auth with global_linha_selecionada := l },
          enviados := o.sis.enviados ++ [.display (.DISP_ATUALIZAR_SELECAO l)] },
        exibidas := o.exibidas, validacoes := o.validacoes } := by
  simp [observar_evento, sistema_evento, task_auth_evento]

/-- The observer's record across one of the first five Selects of an attempt. -/
theorem observar_evento_selecao (rnd : Nat → Nat) (lixo : Nat → Grid) (o : Observacao)
    (l : Nat) (hq : o.sis.xQueueRandomizerResponse = [])
    (hc : o.sis.auth.char_count + 1 < PIN_LENGTH) :
    ∃ g : Grid,
      (observar_evento rnd lixo o ⟨.EVENTO_SELECAO, l⟩).sis.auth.char_count =
        o.sis.auth.char_count + 1 ∧
      (observar_evento rnd lixo o ⟨.EVENTO_SELECAO, l⟩).sis.rand.matrizes_digitos =
        o.sis.rand.matrizes_digitos.set (o.sis.auth.char_count + 1) g ∧
      (observar_evento rnd lixo o ⟨.EVENTO_SELECAO, l⟩).sis.xQueueRandomizerResponse = [] ∧
      matriz_exibida (observar_evento rnd lixo o ⟨.EVENTO_SELECAO, l⟩).sis.enviados = some g ∧
      (observar_evento rnd lixo o ⟨.EVENTO_SELECAO, l⟩).exibidas =
        o.exibidas ++ [matriz_exibida o.sis.enviados] ∧
      (observar_evento rnd lixo o ⟨.EVENTO_SELECAO, l⟩).validacoes = o.validacoes := by
  have hp := task_auth_evento_selecao o.sis.auth o.sis.rand.matrizes_digitos
    ⟨.EVENTO_SELECAO, l⟩ hc rfl
  have h1 : o.sis.auth.char_count < PIN_LENGTH := by omega
  obtain ⟨g, n, hat⟩ := sistema_atender_um rnd lixo o.sis
    (task_auth_evento o.sis.auth o.sis.rand.matrizes_digitos ⟨.EVENTO_SELECAO, l⟩).estado
    (task_auth_evento o.sis.auth o.sis.rand.matrizes_digitos ⟨.EVENTO_SELECAO, l⟩).envios
    .etapa ⟨o.sis.auth.char_count + 1⟩ hq (by rw [hp]; rfl)
  have hobs : observar_evento rnd lixo o ⟨.EVENTO_SELECAO, l⟩ =
      { sis := sistema_atender rnd lixo o.sis
          (task_auth_evento o.sis.auth o.sis.rand.matrizes_digitos ⟨.EVENTO_SELECAO, l⟩).estado
          (task_auth_evento o.sis.auth o.sis.rand.matrizes_digitos ⟨.EVENTO_SELECAO, l⟩).envios
          .etapa,
        exibidas := o.exibidas ++ [matriz_exibida o.sis.enviados],
        validacoes := o.validacoes } := by
    have he : (task_auth_evento o.sis.auth o.sis.rand.matrizes_digitos
        ⟨.EVENTO_SELECAO, l⟩).espera = some .etapa := by rw [hp]
    have hr : resultados (task_auth_evento o.sis.auth o.sis.rand.matrizes_digitos
        ⟨.EVENTO_SELECAO, l⟩).envios = [] := by rw [hp]; rfl
    simp only [observar_evento, sistema_evento, he, hr, h1, and_self, if_true, ne_eq,
      not_true_eq_false, if_false]
  rw [hobs, hat]
  refine ⟨g, ?_, rfl, rfl, ?_, rfl, rfl⟩
  · rw [hp]; rfl
  · simp only [matriz_exibida_append, task_auth_resposta, matriz_exibida]

/-- The observer's record across the sixth Select of an attempt. -/
theorem observar_evento_sexta (rnd : Nat → Nat) (lixo : Nat → Grid) (o : Observacao)
    (l : Nat) (hq : o.sis.xQueueRandomizerResponse = [])
    (hc : o.sis.auth.char_count = 5) :
    ∃ g : Grid,
      (observar_evento rnd lixo o ⟨.EVENTO_SELECAO, l⟩).sis.auth.char_count = 0 ∧
      (observar_evento rnd lixo o ⟨.EVENTO_SELECAO, l⟩).sis.rand.matrizes_digitos =
        o.sis.rand.matrizes_digitos.set 0 g ∧
      (observar_evento rnd lixo o ⟨.EVENTO_SELECAO, l⟩).sis.xQueueRandomizerResponse = [] ∧
      matriz_exibida (observar_evento rnd lixo o ⟨.EVENTO_SELECAO, l⟩).sis.enviados = some g ∧
      (observar_evento rnd lixo o ⟨.EVENTO_SELECAO, l⟩).exibidas = [] ∧
      (observar_evento rnd lixo o ⟨.EVENTO_SELECAO, l⟩).validacoes =
        o.validacoes ++
          [⟨o.sis.rand.matrizes_digitos, o.exibidas ++ [matriz_exibida o.sis.enviados]⟩] := by
  have hp := task_auth_evento_sexta o.sis.auth o.sis.rand.matrizes_digitos
    ⟨.EVENTO_SELECAO, l⟩ hc rfl
  have h1 : o.sis.auth.char_count < PIN_LENGTH := by rw [hc]; decide
  obtain ⟨g, n, hat⟩ := sistema_atender_um rnd lixo o.sis
    (task_auth_evento o.sis.auth o.sis.rand.matrizes_digitos ⟨.EVENTO_SELECAO, l⟩).estado
    (task_auth_evento o.sis.auth o.sis.rand.matrizes_digitos ⟨.EVENTO_SELECAO, l⟩).envios
    .reinicio ⟨0⟩ hq (by rw [hp]; rfl)
  have hobs : observar_evento rnd lixo o ⟨.EVENTO_SELECAO, l⟩ =
      { sis := sistema_atender rnd lixo o.sis
          (task_auth_evento o.sis.auth o.sis.rand.matrizes_digitos ⟨.EVENTO_SELECAO, l⟩).estado
          (task_auth_evento o.sis.auth o.sis.rand.matrizes_digitos ⟨.EVENTO_SELECAO, l⟩).envios
          .reinicio,
        exibidas := [],
        validacoes := o.validacoes ++
          [⟨o.sis.rand.matrizes_digitos, o.exibidas ++ [matriz_exibida o.sis.enviados]⟩] } := by
    have he : (task_auth_evento o.sis.auth o.sis.rand.matrizes_digitos
        ⟨.EVENTO_SELECAO, l⟩).espera = some .reinicio := by rw [hp]
    have hr : resultados (task_auth_evento o.sis.auth o.sis.rand.matrizes_digitos
        ⟨.EVENTO_SELECAO, l⟩).envios ≠ [] := by rw [hp]; simp [resultados]
    simp only [observar_evento, sistema_evento, he, hr, h1, and_self, if_true, ne_eq,
      not_false_eq_true]
  rw [hobs, hat]
  refine ⟨g, ?_, rfl, rfl, ?_, rfl, rfl⟩
  · rw [hp]; rfl
  · simp only [matriz_exibida_append, task_auth_resposta, task_auth_mostrar_inicial,
      matriz_exibida]

theorem getD_set_eq (hist : Historico) (k : Nat) (g : Grid) (hk : k < hist.length) :
    (hist.set k g).getD k [] = g := by
  rw [List.getD_eq_getElem _ _ (by simpa using hk)]
  simp

theorem getD_set_ne (hist : Historico) (k i : Nat) (g : Grid) (hk : k ≠ i) :
    (hist.set k g).getD i [] = hist.getD i [] := by
  simp only [List.getD_eq_getElem?_getD]
  rw [List.getElem?_set_ne hk]

theorem getD_append_um (l : List (Option Grid)) (x : Option Grid) (i : Nat)
    (hi : i < l.length + 1) :
    (l ++ [x]).getD i none = if i < l.length then l.getD i none else x := by
  simp only [List.getD_eq_getElem?_getD]
  split_ifs with h
  · rw [List.getElem?_append_left h]
  · have e : i = l.length := by omega
    subst e
    simp

/-- One input event preserves the observer's invariant, and the number of
selections committed grows by one exactly on a Select event. -/
theorem observar_evento_ok (rnd : Nat → Nat) (lixo : Nat → Grid) (o : Observacao)
    (ev : InputEvent_t) (h : ObservacaoOk o) :
    ObservacaoOk (observar_evento rnd lixo o ev) ∧
    (observar_evento rnd lixo o ev).validacoes.length * PIN_LENGTH +
        (observar_evento rnd lixo o ev).sis.auth.char_count =
      o.validacoes.length * PIN_LENGTH + o.sis.auth.char_count + num_selecao [ev] := by
  obtain ⟨hq, hlen, hcc, hlt, hex, hme, hval⟩ := h
  obtain ⟨tipo, l⟩ := ev
  cases tipo with
  | EVENTO_NAVEGACAO =>
    rw [observar_evento_navegacao]
    refine ⟨⟨hq, hlen, hcc, hlt, hex, ?_, hval⟩, by simp [num_selecao]⟩
    simp only [matriz_exibida_append, matriz_exibida]
    exact hme
  | EVENTO_SELECAO =>
    simp only [PIN_LENGTH] at hlt hlen
    by_cases h5 : o.sis.auth.char_count = 5
    · obtain ⟨g, a1, a2, a3, a4, a5, a6⟩ := observar_evento_sexta rnd lixo o l hq h5
      refine ⟨⟨a3, by rw [a2]; simpa using hlen, by rw [a1, a5]; rfl, by rw [a1]; decide,
        by rw [a5]; intro i hi; exact absurd hi (Nat.not_lt_zero i), ?_, ?_⟩, ?_⟩
      · rw [a4, a1, a2, getD_set_eq _ _ _ (by omega)]
      · rw [a6]
        intro v hv
        rcases List.mem_append.mp hv with hv | hv
        · exact hval v hv
        · rw [List.mem_singleton.mp hv]
          refine ⟨by simp only [List.length_append, List.length_singleton, PIN_LENGTH]; omega, ?_⟩
          intro i hi
          simp only [PIN_LENGTH] at hi
          simp only []
          rw [getD_append_um _ _ _ (by omega)]
          split_ifs with hi2
          · exact hex i hi2
          · have e : i = 5 := by omega
            rw [hme, h5, e]
      · rw [a1, a6]
        simp only [List.length_append, List.length_singleton, num_selecao, PIN_LENGTH]
        simp
        omega
    · obtain ⟨g, a1, a2, a3, a4, a5, a6⟩ := observar_evento_selecao rnd lixo o l hq
        (by simp only [PIN_LENGTH]; omega)
      refine ⟨⟨a3, by rw [a2]; simpa using hlen, by rw [a1, a5]; simp [hcc],
        by rw [a1]; simp only [PIN_LENGTH]; omega, ?_, ?_, by rw [a6]; exact hval⟩, ?_⟩
      · rw [a5, a2]
        intro i hi
        simp only [List.length_append, List.length_singleton] at hi
        rw [getD_append_um _ _ _ hi, getD_set_ne _ _ _ _ (by omega)]
        split_ifs with hi2
        · exact hex i hi2
        · have e : i = o.sis.auth.char_count := by omega
          rw [hme, e]
      · rw [a4, a1, a2, getD_set_eq _ _ _ (by omega)]
      · rw [a1, a6]
        simp [num_selecao]
        omega

theorem num_selecao_cons (ev : InputEvent_t) (evs : List InputEvent_t) :
    num_selecao (ev :: evs) = num_selecao [ev] + num_selecao evs := by
  rw [← num_selecao_append]; rfl

theorem foldl_observar_ok (rnd : Nat → Nat) (lixo : Nat → Grid) (evs : List InputEvent_t)
    (o : Observacao) (h : ObservacaoOk o) :
    ObservacaoOk (evs.foldl (observar_evento rnd lixo) o) ∧
    (evs.foldl (observar_evento rnd lixo) o).validacoes.length * PIN_LENGTH +
        (evs.foldl (observar_evento rnd lixo) o).sis.auth.char_count =
      o.validacoes.length * PIN_LENGTH + o.sis.auth.char_count + num_selecao evs := by
  induction evs generalizing o with
  | nil => exact ⟨h, rfl⟩
  | cons ev evs ih =>
    have h1 := observar_evento_ok rnd lixo o ev h
    have h2 := ih (observar_evento rnd lixo o ev) h1.1
    simp only [List.foldl_cons]
    refine ⟨h2.1, ?_⟩
    have h3 := num_selecao_cons ev evs
    rw [h2.2, h1.2]
    omega

theorem sistema_inicio_ok (rnd : Nat → Nat) (lixo : Nat → Grid) :
    ObservacaoOk { sis := sistema_inicio rnd lixo, exibidas := [], validacoes := [] } ∧
    (sistema_inicio rnd lixo).auth.char_count = 0 := by
  obtain ⟨g, n, hat⟩ := sistema_atender_um rnd lixo
    { auth := task_auth_inicio.1, rand := { matrizes_digitos := init_matrizes_digitos, rng := 0 },
      xQueueRandomizerResponse := [], enviados := [] }
    task_auth_inicio.1 task_auth_inicio.2 .inicial ⟨0⟩ rfl rfl
  rw [sistema_inicio, hat]
  refine ⟨⟨rfl, ?_, rfl, ?_, ?_, ?_, ?_⟩, rfl⟩
  · simp only [List.length_set]; decide
  · show 0 < 6
    omega
  · intro i hi; exact absurd hi (Nat.not_lt_zero i)
  · simp only [matriz_exibida_append, task_auth_resposta, task_auth_mostrar_inicial,
      matriz_exibida]
    rw [show (task_auth_inicio.1).char_count = 0 from rfl, getD_set_eq _ _ _ (by decide)]
  · intro v hv; exact absurd hv (List.not_mem_nil v)

/-- C3: in the runs of `task_auth` with `task_randomizer` in which every grid
request is answered before the wait expires, at every validation (the first
and every later one: there is one per six Select events) the grid recorded
for each of the six positions in `matrizes_digitos` is the grid of the last
`DISP_ATUALIZAR_MATRIZ` command published before the selection of that
position was committed. -/
theorem validacao_usa_matrizes_exibidas (rnd : Nat → Nat) (lixo : Nat → Grid)
    (evs : List InputEvent_t) :
    (∀ v ∈ (observar rnd lixo evs).validacoes,
      v.exibidas.length = PIN_LENGTH ∧
      ∀ i, i < PIN_LENGTH → v.exibidas.getD i none = some (v.matrizes_digitos.getD i [])) ∧
    (observar rnd lixo evs).validacoes.length = num_selecao evs / PIN_LENGTH := by
  have h0 := sistema_inicio_ok rnd lixo
  have h := foldl_observar_ok rnd lixo evs _ h0.1
  rw [observar]
  refine ⟨h.1.2.2.2.2.2.2, ?_⟩
  have hk := h.2
  have hlt := h.1.2.2.2.1
  simp only [h0.2, List.length_nil, PIN_LENGTH] at hk hlt
  simp only [PIN_LENGTH]
  omega

set_option maxRecDepth 1000000 in
theorem validacao_usa_matrizes_exibidas_witness :
    ((observar (fun k => k * 7919 + 13) (fun _ => List.replicate 16 'x')
        [⟨.EVENTO_SELECAO, 0⟩, ⟨.EVENTO_NAVEGACAO, 1⟩, ⟨.EVENTO_SELECAO, 1⟩,
         ⟨.EVENTO_SELECAO, 1⟩, ⟨.EVENTO_NAVEGACAO, 2⟩, ⟨.EVENTO_SELECAO, 2⟩,
         ⟨.EVENTO_SELECAO, 2⟩, ⟨.EVENTO_SELECAO, 2⟩]).validacoes.getD 0 ⟨[], []⟩).exibidas.getD 3
        none =
      some (((observar (fun k => k * 7919 + 13) (fun _ => List.replicate 16 'x')
        [⟨.EVENTO_SELECAO, 0⟩, ⟨.EVENTO_NAVEGACAO, 1⟩, ⟨.EVENTO_SELECAO, 1⟩,
         ⟨.EVENTO_SELECAO, 1⟩, ⟨.EVENTO_NAVEGACAO, 2⟩, ⟨.EVENTO_SELECAO, 2⟩,
         ⟨.EVENTO_SELECAO, 2⟩, ⟨.EVENTO_SELECAO, 2⟩]).validacoes.getD 0
          ⟨[], []⟩).matrizes_digitos.getD 3 []) :=
  ((validacao_usa_matrizes_exibidas (fun k => k * 7919 + 13) (fun _ => List.replicate 16 'x')
      [⟨.EVENTO_SELECAO, 0⟩, ⟨.EVENTO_NAVEGACAO, 1⟩, ⟨.EVENTO_SELECAO, 1⟩,
       ⟨.EVENTO_SELECAO, 1⟩, ⟨.EVENTO_NAVEGACAO, 2⟩, ⟨.EVENTO_SELECAO, 2⟩,
       ⟨.EVENTO_SELECAO, 2⟩, ⟨.EVENTO_SELECAO, 2⟩]).1 _ (by decide)).2 3 (by decide)


/-! ## `task_auth`: a wait that expires -/

/-- An event whose handling reaches a receive on the response queue is a
Select, and exactly one request was sent before the wait, with no grid or
cursor command. -/
theorem task_auth_evento_com_espera (s : AuthState) (hist : Historico) (evento : InputEvent_t)
    (e : Espera) (he : (task_auth_evento s hist evento).espera = some e) :
    evento.tipo = .EVENTO_SELECAO ∧
    (pedidos (task_auth_evento s hist evento).envios).length = 1 ∧
    ∀ c ∈ (task_auth_evento s hist evento).envios, desenha_matriz_ou_cursor c = false := by
  obtain ⟨tipo, l⟩ := evento
  cases tipo with
  | EVENTO_NAVEGACAO => simp [task_auth_evento] at he
  | EVENTO_SELECAO =>
    refine ⟨rfl, ?_⟩
    simp only [task_auth_evento] at he ⊢
    split_ifs at he ⊢ <;> simp [pedidos, desenha_matriz_ou_cursor] at he ⊢

/-- C11 as stated fails: from the start of a session, a Select makes
`task_auth` request the grid of step 1 and wait; the wait expires; a Navigate
to row 2 is then handled (a cursor command is published) and the next Select
commits row 2 as the second selection, advances `char_count` from 1 to 2 and
requests the grid of step 2. -/
theorem task_auth_avanca_apos_timeout :
    (task_auth_evento task_auth_inicio.1 init_matrizes_digitos ⟨.EVENTO_SELECAO, 0⟩).espera =
      some .etapa ∧
    (task_auth_tratar task_auth_inicio.1 init_matrizes_digitos
      ⟨.EVENTO_SELECAO, 0⟩ none).1.char_count = 1 ∧
    task_auth_run
        (task_auth_tratar task_auth_inicio.1 init_matrizes_digitos ⟨.EVENTO_SELECAO, 0⟩ none).1
        [⟨⟨.EVENTO_NAVEGACAO, 2⟩, init_matrizes_digitos, none⟩,
         ⟨⟨.EVENTO_SELECAO, 2⟩, init_matrizes_digitos, some ⟨2, chars⟩⟩] =
      (⟨2, ['*', '*', NUL, NUL, NUL, NUL, NUL], [0, 2, 0, 0, 0, 0], 2⟩,
       [.display (.DISP_ATUALIZAR_SELECAO 2),
        .display (.DISP_ATUALIZAR_SENHA ['*', '*', NUL, NUL, NUL, NUL, NUL]),
        .pedido ⟨2⟩,
        .display (.DISP_ATUALIZAR_MATRIZ chars),
        .display (.DISP_ATUALIZAR_SELECAO 2)]) := by
  decide

/-- C11, amended: when the wait for a grid response expires, `task_auth`
sends no further request (the only request of the iteration is the one sent
before the wait) and publishes no grid and no cursor command in that
iteration, and its variables stay as they were when the wait began.  It does
not stall: it goes back to the input queue, and a later Select with fewer
than five rows committed commits the highlighted row, advances `char_count`
and requests the next grid, while a later Navigate publishes a cursor
command. -/
theorem task_auth_espera_expirada (s : AuthState) (hist : Historico) (evento : InputEvent_t) :
    (∀ e : Espera,
      (task_auth_resposta e s none).1 = s ∧
      pedidos (task_auth_resposta e s none).2 = [] ∧
      ∀ c ∈ (task_auth_resposta e s none).2, desenha_matriz_ou_cursor c = false) ∧
    (∀ e : Espera, (task_auth_evento s hist evento).espera = some e →
      (task_auth_tratar s hist evento none).1 = (task_auth_evento s hist evento).estado ∧
      (pedidos (task_auth_tratar s hist evento none).2).length = 1 ∧
      (∀ c ∈ (task_auth_tratar s hist evento none).2, desenha_matriz_ou_cursor c = false) ∧
      (∀ (hist2 : Historico) (ev2 : InputEvent_t) (resp2 : Option RandomizerResponse_t),
        ev2.tipo = .EVENTO_SELECAO →
        (task_auth_tratar s hist evento none).1.char_count + 1 < PIN_LENGTH →
        (task_auth_tratar (task_auth_tratar s hist evento none).1 hist2 ev2 resp2).1.char_count =
          (task_auth_tratar s hist evento none).1.char_count + 1 ∧
        (task_auth_tratar (task_auth_tratar s hist evento none).1 hist2 ev2
            resp2).1.linhas_selecionadas =
          (task_auth_tratar s hist evento none).1.linhas_selecionadas.set
            (task_auth_tratar s hist evento none).1.char_count
            (task_auth_tratar s hist evento none).1.global_linha_selecionada ∧
        pedidos (task_auth_tratar (task_auth_tratar s hist evento none).1 hist2 ev2 resp2).2 =
          [⟨(task_auth_tratar s hist evento none).1.char_count + 1⟩]) ∧
      (∀ (hist2 : Historico) (ev2 : InputEvent_t) (resp2 : Option RandomizerResponse_t),
        ev2.tipo = .EVENTO_NAVEGACAO →
        (task_auth_tratar (task_auth_tratar s hist evento none).1 hist2 ev2 resp2).2 =
          [.display (.DISP_ATUALIZAR_SELECAO ev2.linha)])) := by
  have hs : strncpy [] (PIN_LENGTH + 1) = List.replicate 7 NUL := by decide
  constructor
  · intro e
    cases e <;> simp [task_auth_resposta, pedidos, desenha_matriz_ou_cursor]
  · intro e he
    have h0 := task_auth_evento_com_espera s hist evento e he
    have ht : task_auth_tratar s hist evento none =
        ((task_auth_evento s hist evento).estado,
          (task_auth_evento s hist evento).envios ++
            (task_auth_resposta e (task_auth_evento s hist evento).estado none).2) := by
      simp only [task_auth_tratar, he]
      cases e <;> rfl
    have hp : pedidos (task_auth_tratar s hist evento none).2 =
        pedidos (task_auth_evento s hist evento).envios := by
      rw [ht]
      cases e <;> simp [task_auth_resposta, pedidos_append, pedidos]
    refine ⟨by rw [ht], by rw [hp]; exact h0.2.1, ?_, ?_, ?_⟩
    · intro c hc
      rw [ht] at hc
      rcases List.mem_append.mp hc with hc | hc
      · exact h0.2.2 c hc
      · revert hc
        cases e with
        | reinicio =>
          simp only [task_auth_resposta, List.nil_append, List.mem_singleton]
          intro hc
          subst hc
          rfl
        | _ => simp [task_auth_resposta]
    · intro hist2 ev2 resp2 h2 hcc
      generalize (task_auth_tratar s hist evento none).1 = s1 at hcc ⊢
      rw [task_auth_tratar, task_auth_evento_selecao s1 hist2 ev2 hcc h2]
      cases resp2 <;> simp [task_auth_resposta, pedidos]
    · intro hist2 ev2 resp2 h2
      simp [task_auth_tratar, task_auth_evento, h2]

theorem task_auth_espera_expirada_witness :
    (task_auth_tratar
      (task_auth_tratar task_auth_inicio.1 init_matrizes_digitos ⟨.EVENTO_SELECAO, 0⟩ none).1
      init_matrizes_digitos ⟨.EVENTO_SELECAO, 1⟩ none).1.char_count = 2 ∧
    pedidos (task_auth_tratar task_auth_inicio.1 init_matrizes_digitos
      ⟨.EVENTO_SELECAO, 0⟩ none).2 = [⟨1⟩] :=
  have h := (task_auth_espera_expirada task_auth_inicio.1 init_matrizes_digitos
    ⟨.EVENTO_SELECAO, 0⟩).2 .etapa (by decide)
  ⟨((h.2.2.2.1 init_matrizes_digitos ⟨.EVENTO_SELECAO, 1⟩ none rfl (by decide)).1).trans
      (by decide),
   by decide⟩

/-! ## `task_auth`: a Select and a Navigate -/

theorem lista_de_sete (l : List Char) (h : l.length = 7) :
    ∃ a b c d e f g, l = [a, b, c, d, e, f, g] := by
  match l, h with
  | [a, b, c, d, e, f, g], _ => exact ⟨a, b, c, d, e, f, g, rfl⟩

/-- The mask after one more selection, for a buffer of seven bytes whose
first `n` bytes are stars: `n + 1` stars, then `NUL`. -/
theorem senha_apos_selecao (buf : List Char) (n : Nat) (hn : n < PIN_LENGTH)
    (hlen : buf.length = PIN_LENGTH + 1) (hst : ∀ i, i < n → buf.getD i NUL = '*') :
    cstr ((buf.set n '*').set (n + 1) NUL) = List.replicate (n + 1) '*' ∧
    strncpy ((buf.set n '*').set (n + 1) NUL) (PIN_LENGTH + 1) =
      List.replicate (n + 1) '*' ++ List.replicate (PIN_LENGTH - n) NUL := by
  obtain ⟨a, b, c, d, e, f, g, rfl⟩ := lista_de_sete buf hlen
  simp only [PIN_LENGTH] at hn
  have h0 := hst 0
  have h1 := hst 1
  have h2 := hst 2
  have h3 := hst 3
  have h4 := hst 4
  interval_cases n <;> simp at h0 h1 h2 h3 h4 <;>
    simp [cstr, strncpy, List.takeWhile, List.replicate, *] <;> decide

/-- C12: for a session state with `char_count < PIN_LENGTH` (arrays of their
declared sizes, the mask buffer holding `char_count` stars), handling a Select
stores the highlighted row `global_linha_selecionada` at
`linhas_selecionadas[char_count]`, whatever row the event carries, makes the
masked string `char_count + 1` stars and publishes a password command with
that string first; when `char_count + 1 < PIN_LENGTH` the variables are left
so and exactly one request, for step `char_count + 1`, and no result is sent;
on the sixth selection the one result sent is the validation of the rows so
stored.  Handling a Navigate sets the highlighted row to the row of the
event, publishes one cursor command with that row, and changes nothing else. -/
theorem task_auth_selecao_e_navegacao (s : AuthState) (hist : Historico)
    (evento : InputEvent_t) (resp : Option RandomizerResponse_t) :
    (evento.tipo = .EVENTO_SELECAO → s.char_count < PIN_LENGTH →
      s.linhas_selecionadas.length = PIN_LENGTH →
      s.senha_display.length = PIN_LENGTH + 1 →
      (∀ i, i < s.char_count → s.senha_display.getD i NUL = '*') →
      (task_auth_registrar s).1.linhas_selecionadas.getD s.char_count 0 =
        s.global_linha_selecionada ∧
      (∀ i, i ≠ s.char_count → (task_auth_registrar s).1.linhas_selecionadas.getD i 0 =
        s.linhas_selecionadas.getD i 0) ∧
      (task_auth_registrar s).1.char_count = s.char_count + 1 ∧
      (task_auth_registrar s).1.global_linha_selecionada = s.global_linha_selecionada ∧
      cstr (task_auth_registrar s).1.senha_display = List.replicate (s.char_count + 1) '*' ∧
      (task_auth_registrar s).2 =
        .display (.DISP_ATUALIZAR_SENHA
          (List.replicate (s.char_count + 1) '*' ++
            List.replicate (PIN_LENGTH - s.char_count) NUL)) ∧
      (task_auth_tratar s hist evento resp).2.head? = some (task_auth_registrar s).2 ∧
      (s.char_count + 1 < PIN_LENGTH →
        (task_auth_tratar s hist evento resp).1 = (task_auth_registrar s).1 ∧
        pedidos (task_auth_tratar s hist evento resp).2 = [⟨s.char_count + 1⟩] ∧
        resultados (task_auth_tratar s hist evento resp).2 = []) ∧
      (s.char_count + 1 = PIN_LENGTH →
        resultados (task_auth_tratar s hist evento resp).2 =
          [⟨validar hist (task_auth_registrar s).1.linhas_selecionadas⟩])) ∧
    (evento.tipo = .EVENTO_NAVEGACAO →
      (task_auth_tratar s hist evento resp).1 =
        { s with global_linha_selecionada := evento.linha } ∧
      (task_auth_tratar s hist evento resp).2 =
        [.display (.DISP_ATUALIZAR_SELECAO evento.linha)]) := by
  constructor
  · intro he hcc hlin hlen hst
    have hb := senha_apos_selecao s.senha_display s.char_count hcc hlen hst
    have hmod : (s.char_count + 1) % 256 = s.char_count + 1 := by
      simp only [PIN_LENGTH] at hcc; omega
    refine ⟨?_, ?_, hmod, rfl, hb.1, ?_, ?_, ?_, ?_⟩
    · simp only [task_auth_registrar]
      rw [List.getD_eq_getElem _ _ (by rw [List.length_set, hlin]; exact hcc)]
      simp
    · intro i hi
      simp only [task_auth_registrar, List.getD_eq_getElem?_getD]
      rw [List.getElem?_set_ne (Ne.symm hi)]
    · simp only [task_auth_registrar, hb.2]
    · by_cases h6 : s.char_count + 1 < PIN_LENGTH
      · rw [task_auth_tratar, task_auth_evento_selecao s hist evento h6 he]
        cases resp <;> rfl
      · have h5 : s.char_count = 5 := by simp only [PIN_LENGTH] at hcc h6; omega
        rw [task_auth_tratar, task_auth_evento_sexta s hist evento h5 he]
        simp only [task_auth_registrar, h5]
        cases resp <;> rfl
    · intro h6
      rw [task_auth_tratar, task_auth_evento_selecao s hist evento h6 he]
      simp only [task_auth_registrar, hmod]
      cases resp <;> simp [task_auth_resposta, pedidos, resultados]
    · intro h6
      have h5 : s.char_count = 5 := by simp only [PIN_LENGTH] at h6; omega
      rw [task_auth_tratar, task_auth_evento_sexta s hist evento h5 he]
      simp only [task_auth_registrar, h5]
      cases resp <;> simp [task_auth_resposta, task_auth_mostrar_inicial, resultados]
  · intro he
    simp [task_auth_tratar, task_auth_evento, he]

theorem task_auth_selecao_e_navegacao_witness :
    (task_auth_tratar ⟨2, ['*', '*', NUL, NUL, NUL, NUL, NUL], [1, 3, 0, 0, 0, 0], 2⟩
      init_matrizes_digitos ⟨.EVENTO_SELECAO, 0⟩ (some ⟨3, chars⟩)).1 =
      ⟨3, ['*', '*', '*', NUL, NUL, NUL, NUL], [1, 3, 2, 0, 0, 0], 2⟩ ∧
    pedidos (task_auth_tratar ⟨2, ['*', '*', NUL, NUL, NUL, NUL, NUL], [1, 3, 0, 0, 0, 0], 2⟩
      init_matrizes_digitos ⟨.EVENTO_SELECAO, 0⟩ (some ⟨3, chars⟩)).2 = [⟨3⟩] ∧
    (task_auth_tratar ⟨2, ['*', '*', NUL, NUL, NUL, NUL, NUL], [1, 3, 0, 0, 0, 0], 2⟩
      init_matrizes_digitos ⟨.EVENTO_NAVEGACAO, 1⟩ none).2 =
      [.display (.DISP_ATUALIZAR_SELECAO 1)] :=
  have h := (task_auth_selecao_e_navegacao
    ⟨2, ['*', '*', NUL, NUL, NUL, NUL, NUL], [1, 3, 0, 0, 0, 0], 2⟩
    init_matrizes_digitos ⟨.EVENTO_SELECAO, 0⟩ (some ⟨3, chars⟩)).1 rfl (by decide) (by decide)
    (by decide) (by decide)
  have hn := (task_auth_selecao_e_navegacao
    ⟨2, ['*', '*', NUL, NUL, NUL, NUL, NUL], [1, 3, 0, 0, 0, 0], 2⟩
    init_matrizes_digitos ⟨.EVENTO_NAVEGACAO, 1⟩ none).2 rfl
  have h3 := h.2.2.2.2.2.2.2.1 (by decide)
  ⟨h3.1.trans (by decide), h3.2.1, hn.2⟩

/-! ## `task_auth`: the session invariant -/

theorem cstr_estrelas (n m : Nat) :
    cstr (List.replicate n '*' ++ List.replicate m NUL) = List.replicate n '*' := by
  induction n with
  | zero => cases m <;> simp [cstr, List.replicate]
  | succ n ih =>
    have hne : ('*' != NUL) = true := by decide
    simp only [cstr] at ih
    simp only [cstr, List.replicate_succ, List.cons_append, List.takeWhile_cons, hne, if_true, ih]

theorem set_linhas_ok (linhas : List Nat) (k g : Nat) (hg : g < NUM_LINES)
    (h : ∀ l ∈ linhas, l < NUM_LINES) : ∀ l ∈ linhas.set k g, l < NUM_LINES := by
  intro l hl
  rcases List.mem_or_eq_of_mem_set hl with hl | hl
  · exact h l hl
  · rw [hl]; exact hg

/-- One iteration of the loop of `task_auth` preserves the session invariant
and sends only requests for steps below `PIN_LENGTH`, provided a Navigate
event carries a row of the grid. -/
theorem task_auth_tratar_ok (s : AuthState) (hist : Historico) (evento : InputEvent_t)
    (resp : Option RandomizerResponse_t) (h : SessaoOk s)
    (hnav : evento.tipo = .EVENTO_NAVEGACAO → evento.linha < NUM_LINES) :
    SessaoOk (task_auth_tratar s hist evento resp).1 ∧
    ∀ r ∈ pedidos (task_auth_tratar s hist evento resp).2, r.etapa < PIN_LENGTH := by
  obtain ⟨hcc, hbuf, hlen, hlin, hg⟩ := h
  obtain ⟨tipo, l⟩ := evento
  cases tipo with
  | EVENTO_NAVEGACAO =>
    have hl := hnav rfl
    simp only [task_auth_tratar, task_auth_evento, pedidos]
    exact ⟨⟨hcc, hbuf, hlen, hlin, hl⟩, fun r hr => absurd hr (List.not_mem_nil r)⟩
  | EVENTO_SELECAO =>
    by_cases h6 : s.char_count + 1 < PIN_LENGTH
    · have hst : SessaoOk (task_auth_evento s hist ⟨.EVENTO_SELECAO, l⟩).estado := by
        rw [task_auth_evento_selecao s hist _ h6 rfl]
        refine ⟨h6, ?_, by simpa using hlen, set_linhas_ok _ _ _ hg hlin, hg⟩
        simp only [hbuf]
        simp only [PIN_LENGTH] at h6
        have h7 : s.char_count < 5 := by omega
        generalize s.char_count = n at h7
        interval_cases n <;> decide
      have hpe : pedidos (task_auth_evento s hist ⟨.EVENTO_SELECAO, l⟩).envios =
          [⟨s.char_count + 1⟩] := by
        rw [task_auth_evento_selecao s hist _ h6 rfl]; rfl
      have hes : (task_auth_evento s hist ⟨.EVENTO_SELECAO, l⟩).espera = some .etapa := by
        rw [task_auth_evento_selecao s hist _ h6 rfl]
      simp only [task_auth_tratar, hes]
      constructor
      · cases resp <;> exact hst
      · rw [pedidos_append, hpe]
        intro r hr
        cases resp <;> simp [task_auth_resposta, pedidos] at hr <;> rw [hr] <;> exact h6
    · have h5 : s.char_count = 5 := by simp only [PIN_LENGTH] at hcc h6; omega
      rw [task_auth_tratar, task_auth_evento_sexta s hist _ h5 rfl]
      constructor
      · cases resp <;>
          simp only [task_auth_resposta, task_auth_mostrar_inicial] <;>
          exact ⟨by decide, by decide, by decide, by decide, by decide⟩
      · intro r hr
        cases resp <;>
          simp [task_auth_resposta, task_auth_mostrar_inicial, pedidos] at hr <;>
          rw [hr] <;> decide

theorem task_auth_run_ok (entradas : List Entrada) (s : AuthState) (h : SessaoOk s)
    (hnav : ∀ e ∈ entradas, e.evento.tipo = .EVENTO_NAVEGACAO → e.evento.linha < NUM_LINES) :
    SessaoOk (task_auth_run s entradas).1 ∧
    ∀ r ∈ pedidos (task_auth_run s entradas).2, r.etapa < PIN_LENGTH := by
  induction entradas generalizing s with
  | nil => exact ⟨h, fun r hr => absurd hr (List.not_mem_nil r)⟩
  | cons e rest ih =>
    have h1 := task_auth_tratar_ok s e.matrizes_digitos e.evento e.resp h
      (hnav e (List.mem_cons_self _ _))
    have h2 := ih (task_auth_tratar s e.matrizes_digitos e.evento e.resp).1 h1.1
      (fun x hx => hnav x (List.mem_cons_of_mem _ hx))
    simp only [task_auth_run]
    refine ⟨h2.1, ?_⟩
    intro r hr
    rw [pedidos_append] at hr
    rcases List.mem_append.mp hr with hr | hr
    · exact h1.2 r hr
    · exact h2.2 r hr

theorem task_auth_desde_inicio_ok (resp0 : Option RandomizerResponse_t)
    (entradas : List Entrada)
    (hnav : ∀ e ∈ entradas, e.evento.tipo = .EVENTO_NAVEGACAO → e.evento.linha < NUM_LINES) :
    SessaoOk (task_auth_desde_inicio resp0 entradas).1 ∧
    ∀ r ∈ pedidos (task_auth_desde_inicio resp0 entradas).2, r.etapa < PIN_LENGTH := by
  have h0 : SessaoOk (task_auth_resposta .inicial task_auth_inicio.1 resp0).1 := by
    cases resp0 <;>
      simp only [task_auth_resposta, task_auth_mostrar_inicial] <;>
      exact ⟨by decide, by decide, by decide, by decide, by decide⟩
  have h := task_auth_run_ok entradas _ h0 hnav
  simp only [task_auth_desde_inicio]
  refine ⟨h.1, ?_⟩
  intro r hr
  rw [pedidos_append, pedidos_append] at hr
  rcases List.mem_append.mp hr with hr | hr
  · rcases List.mem_append.mp hr with hr | hr
    · simp only [task_auth_inicio, pedidos, List.mem_singleton] at hr
      rw [hr]; decide
    · revert hr
      cases resp0 <;> simp [task_auth_resposta, task_auth_mostrar_inicial, pedidos]
  · exact h.2 r hr

/-- C13: when every Navigate event delivered to `task_auth` carries a row in
[0, 3], then after any finite sequence of input events (whatever the responses
received and whichever waits expired) `char_count` is below `PIN_LENGTH`, the
masked string is `char_count` stars, every entry of `linhas_selecionadas` and
the highlighted row are in [0, 3]; so the next selection writes
`linhas_selecionadas[char_count]` and `senha_display[char_count + 1]` inside
the arrays, every request sent carries a step below `PIN_LENGTH`, and a
validation reads `matrizes_digitos[i][row][j]` with `row` below `NUM_LINES`,
inside the grid of 16 cells. -/
theorem task_auth_sessao_invariante (resp0 : Option RandomizerResponse_t)
    (entradas : List Entrada)
    (hnav : ∀ e ∈ entradas, e.evento.tipo = .EVENTO_NAVEGACAO → e.evento.linha ≤ 3) :
    SessaoOk (task_auth_desde_inicio resp0 entradas).1 ∧
    (task_auth_desde_inicio resp0 entradas).1.char_count < PIN_LENGTH ∧
    cstr (task_auth_desde_inicio resp0 entradas).1.senha_display =
      List.replicate (task_auth_desde_inicio resp0 entradas).1.char_count '*' ∧
    (∀ l ∈ (task_auth_desde_inicio resp0 entradas).1.linhas_selecionadas, l ≤ 3) ∧
    (task_auth_desde_inicio resp0 entradas).1.global_linha_selecionada ≤ 3 ∧
    (task_auth_desde_inicio resp0 entradas).1.char_count <
      (task_auth_desde_inicio resp0 entradas).1.linhas_selecionadas.length ∧
    (task_auth_desde_inicio resp0 entradas).1.linhas_selecionadas.length = PIN_LENGTH ∧
    (task_auth_desde_inicio resp0 entradas).1.char_count + 1 <
      (task_auth_desde_inicio resp0 entradas).1.senha_display.length ∧
    (task_auth_desde_inicio resp0 entradas).1.senha_display.length = PIN_LENGTH + 1 ∧
    (∀ r ∈ pedidos (task_auth_desde_inicio resp0 entradas).2, r.etapa < PIN_LENGTH) ∧
    (∀ i j, i < PIN_LENGTH → j < NUMBERS_PER_LINE →
      ((task_auth_desde_inicio resp0 entradas).1.linhas_selecionadas.set
          (task_auth_desde_inicio resp0 entradas).1.char_count
          (task_auth_desde_inicio resp0 entradas).1.global_linha_selecionada).getD i 0
        < NUM_LINES ∧
      ((task_auth_desde_inicio resp0 entradas).1.linhas_selecionadas.set
          (task_auth_desde_inicio resp0 entradas).1.char_count
          (task_auth_desde_inicio resp0 entradas).1.global_linha_selecionada).getD i 0
        * NUMBERS_PER_LINE + j < TOTAL_CHARS) := by
  have h := task_auth_desde_inicio_ok resp0 entradas
    (fun e he hn => Nat.lt_succ_of_le (hnav e he hn))
  generalize (task_auth_desde_inicio resp0 entradas).1 = s at h
  obtain ⟨⟨hcc, hbuf, hlen, hlin, hg⟩, hreq⟩ := h
  have hblen : s.senha_display.length = PIN_LENGTH + 1 := by
    rw [hbuf]
    simp only [List.length_append, List.length_replicate, PIN_LENGTH] at hcc ⊢
    omega
  refine ⟨⟨hcc, hbuf, hlen, hlin, hg⟩, hcc, ?_, fun l hl => Nat.le_of_lt_succ (hlin l hl),
    Nat.le_of_lt_succ hg, by rw [hlen]; exact hcc, hlen, ?_, hblen, hreq, ?_⟩
  · rw [hbuf, cstr_estrelas]
  · rw [hblen]
    simp only [PIN_LENGTH] at hcc ⊢
    omega
  · intro i j hi hj
    have hrow : (s.linhas_selecionadas.set s.char_count s.global_linha_selecionada).getD i 0
        < NUM_LINES := by
      rw [List.getD_eq_getElem _ _ (by rw [List.length_set, hlen]; exact hi)]
      exact set_linhas_ok _ _ _ hg hlin _ (List.getElem_mem _)
    refine ⟨hrow, ?_⟩
    simp only [NUM_LINES, NUMBERS_PER_LINE, TOTAL_CHARS] at hrow hj ⊢
    omega

theorem task_auth_sessao_invariante_witness :
    (task_auth_desde_inicio (some ⟨0, chars⟩)
      [⟨⟨.EVENTO_NAVEGACAO, 3⟩, init_matrizes_digitos, none⟩,
       ⟨⟨.EVENTO_SELECAO, 3⟩, init_matrizes_digitos, none⟩,
       ⟨⟨.EVENTO_NAVEGACAO, 2⟩, init_matrizes_digitos, none⟩,
       ⟨⟨.EVENTO_SELECAO, 2⟩, init_matrizes_digitos, some ⟨2, chars⟩⟩]).1 =
      ⟨2, ['*', '*', NUL, NUL, NUL, NUL, NUL], [3, 2, 0, 0, 0, 0], 2⟩ ∧
    cstr (task_auth_desde_inicio (some ⟨0, chars⟩)
      [⟨⟨.EVENTO_NAVEGACAO, 3⟩, init_matrizes_digitos, none⟩,
       ⟨⟨.EVENTO_SELECAO, 3⟩, init_matrizes_digitos, none⟩,
       ⟨⟨.EVENTO_NAVEGACAO, 2⟩, init_matrizes_digitos, none⟩,
       ⟨⟨.EVENTO_SELECAO, 2⟩, init_matrizes_digitos, some ⟨2, chars⟩⟩]).1.senha_display =
      List.replicate
        (task_auth_desde_inicio (some ⟨0, chars⟩)
          [⟨⟨.EVENTO_NAVEGACAO, 3⟩, init_matrizes_digitos, none⟩,
           ⟨⟨.EVENTO_SELECAO, 3⟩, init_matrizes_digitos, none⟩,
           ⟨⟨.EVENTO_NAVEGACAO, 2⟩, init_matrizes_digitos, none⟩,
           ⟨⟨.EVENTO_SELECAO, 2⟩, init_matrizes_digitos, some ⟨2, chars⟩⟩]).1.char_count '*' :=
  ⟨by decide,
   (task_auth_sessao_invariante (some ⟨0, chars⟩)
      [⟨⟨.EVENTO_NAVEGACAO, 3⟩, init_matrizes_digitos, none⟩,
       ⟨⟨.EVENTO_SELECAO, 3⟩, init_matrizes_digitos, none⟩,
       ⟨⟨.EVENTO_NAVEGACAO, 2⟩, init_matrizes_digitos, none⟩,
       ⟨⟨.EVENTO_SELECAO, 2⟩, init_matrizes_digitos, some ⟨2, chars⟩⟩]
      (by decide)).2.2.1⟩

end Teclado
